import Mathlib

/-!
Verification of the amakaflow-fitfiletool core against its specification.

This file shallowly embeds the relevant Python source
(`garmin_lookup.py`, `fit_builder.py`, `fit_parser.py`) as executable Lean
definitions and proves or refutes the frozen claims about them.

Embedding conventions:
- Python dicts with a fixed field schema become Lean structures; a missing
  optional key is `none`.
- Python ints are `Int` where negative values are possible (category ids)
  and `Nat` where the data is counts/seconds/meters.
- Python truthiness (`x or y`, `if x:`) is translated explicitly
  (`none`/`0`/`""` are falsy).
- Regex-based transformations are translated into equivalent character-list
  scanners, following the leftmost-match semantics of `re.sub`/`re.match`.
- The fuzzy string-similarity primitive (`difflib.SequenceMatcher`) and the
  JSON exercise database are external collaborators of the core (per the
  spec's scope section); `find` is therefore parameterised over them, and
  concrete evaluations use the empty database, which exercises the built-in
  keyword table and the default fallback exactly as the source does.
-/

namespace AmakaFit

/-! ## Small Python-semantics helpers -/

/-- Is the string empty (structurally, on the character list)? -/
def strIsEmpty (s : String) : Bool := s.toList.isEmpty

/-- Lower-cased character list of a string (Python `str.lower()`). -/
def toLowerList (s : String) : List Char := s.toList.map Char.toLower

/-- `o or d` for optional strings, with `""` falsy, as in Python. -/
def pyStrOr (o : Option String) (d : String) : String :=
  match o with
  | some s => if strIsEmpty s then d else s
  | none => d

/-- Python truthiness for an optional string (`None` and `""` are falsy). -/
def strFalsy (o : Option String) : Bool :=
  match o with
  | some s => strIsEmpty s
  | none => true

/-- Split a character list at separators recognised by `p`, dropping empty
words (Python `str.split()` semantics). -/
def wordsBy (p : Char → Bool) (l : List Char) : List (List Char) :=
  (l.foldr (fun c acc =>
    if p c then [] :: acc
    else
      match acc with
      | [] => [[c]]
      | w :: ws => (c :: w) :: ws) []).filter (fun w => !w.isEmpty)

/-- Strip leading and trailing whitespace from a character list
(Python `str.strip()`). -/
def trimChars (l : List Char) : List Char :=
  ((l.dropWhile Char.isWhitespace).reverse.dropWhile Char.isWhitespace).reverse

/-- Digits of a decimal numeral to a natural number. -/
def natOfDigits (l : List Char) : Nat :=
  l.foldl (fun a c => a * 10 + (c.toNat - 48)) 0

/-- Parse a nonempty all-digit run (Python `int` on a digit string). -/
def digitsVal (l : List Char) : Option Nat :=
  if l.isEmpty then none
  else if l.all Char.isDigit then some (natOfDigits l) else none

/-- Python `int(s)`: optional surrounding whitespace, optional sign,
then decimal digits; anything else raises (modelled as `none`). -/
def pyInt (s : String) : Option Int :=
  match trimChars s.toList with
  | '-' :: r => (digitsVal r).map (fun n => -(n : Int))
  | '+' :: r => (digitsVal r).map (fun n => (n : Int))
  | r => (digitsVal r).map (fun n => (n : Int))

/-! ## `garmin_lookup.py` -/

/-- `MAX_VALID_CATEGORY_ID` (garmin_lookup.py line 20). -/
def MAX_VALID_CATEGORY_ID : Int := 32

/-- `INVALID_CATEGORY_FALLBACK` (garmin_lookup.py lines 24-36). -/
def INVALID_CATEGORY_FALLBACK : List (Int × Int) :=
  [(33, 2), (34, 2), (35, 2), (36, 2), (37, 2), (38, 2),
   (39, 29), (40, 29), (41, 29), (42, 29), (43, 29)]

/-- `validate_category_id` (garmin_lookup.py lines 39-57).  Ids `≤ 32`
are returned unchanged; remapped ids use the fallback table; any other id
falls back to Total Body (29). -/
def validate_category_id (category_id : Int) : Int :=
  if category_id ≤ MAX_VALID_CATEGORY_ID then category_id
  else
    match INVALID_CATEGORY_FALLBACK.find? (fun p => p.1 == category_id) with
    | some p => p.2
    | none => 29

/-! ### Name normalization (`GarminExerciseLookup.normalize`, lines 113-139)

Each regex substitution of the source is translated to an equivalent
character scanner.  `truncAtFirst p` implements `re.sub(pat..'.*$', '', s)`
for a pattern `pat` recognised by `p` at a position: the string is cut at
the leftmost position where `p` matches, exactly as `re.sub` removes the
leftmost match that extends to the end of the string. -/

/-- Cut the list at the first position where `p` holds on the suffix. -/
def truncAtFirst (p : List Char → Bool) : List Char → List Char
  | [] => []
  | c :: rest => if p (c :: rest) then [] else c :: truncAtFirst p rest

/-- Drop trailing `'|'` characters (Python `rstrip('|')`). -/
def rstripPipes (l : List Char) : List Char :=
  (l.reverse.dropWhile (fun c => c == '|')).reverse

/-- `re.sub(r'^[a-z]\d+[;:\s]+', '', name)` — strip a leading
speaker-label such as `a1:` (the input is already lower-cased). -/
def stripSpeakerTag (l : List Char) : List Char :=
  match l with
  | [] => []
  | c :: rest =>
    if c.isAlpha then
      let ds := rest.takeWhile Char.isDigit
      let r2 := rest.dropWhile Char.isDigit
      let seps := r2.takeWhile (fun ch => ch == ';' || ch == ':' || ch.isWhitespace)
      if ds.isEmpty || seps.isEmpty then c :: rest
      else r2.dropWhile (fun ch => ch == ';' || ch == ':' || ch.isWhitespace)
    else c :: rest

/-- Equipment abbreviations stripped from the front of a name
(garmin_lookup.py line 123). -/
def equipTokens : List (List Char) :=
  ["db ", "kb ", "bb ", "sb ", "mb ", "trx ", "cable ", "band "].map String.toList

/-- Sequentially strip equipment abbreviations, in source order. -/
def dropEquipTokens (l : List Char) : List Char :=
  equipTokens.foldl (fun acc p => if p.isPrefixOf acc then acc.drop p.length else acc) l

/-- Does `\s*x\s*\d` match at the head of the suffix
(the rep-count pattern `\s*x\s*\d+.*$`, line 128; input is lower-cased)? -/
def xCountAt (l : List Char) : Bool :=
  match l.dropWhile Char.isWhitespace with
  | 'x' :: r =>
    match r.dropWhile Char.isWhitespace with
    | d :: _ => d.isDigit
    | [] => false
  | _ => false

/-- Does `\s+(each|per)\s+(side|arm|leg)` match at the head of the suffix
(line 131)? -/
def eachPerAt (l : List Char) : Bool :=
  let ws := l.takeWhile Char.isWhitespace
  if ws.isEmpty then false
  else
    let r := l.dropWhile Char.isWhitespace
    let checkWord : List Char → Bool := fun w =>
      if w.isPrefixOf r then
        let r2 := r.drop w.length
        if (r2.takeWhile Char.isWhitespace).isEmpty then false
        else
          let r3 := r2.dropWhile Char.isWhitespace
          "side".toList.isPrefixOf r3 || "arm".toList.isPrefixOf r3 ||
            "leg".toList.isPrefixOf r3
      else false
    checkWord "each".toList || checkWord "per".toList

/-- Does `\s*[\d.]+\s*(m|km)\s*$` match at the head of the suffix and run
to the end of the string (line 134)? -/
def distEndAt (l : List Char) : Bool :=
  let r := l.dropWhile Char.isWhitespace
  let num := r.takeWhile (fun c => c.isDigit || c == '.')
  if num.isEmpty then false
  else
    match (r.drop num.length).dropWhile Char.isWhitespace with
    | 'm' :: rest => (rest.dropWhile Char.isWhitespace).isEmpty
    | 'k' :: 'm' :: rest => (rest.dropWhile Char.isWhitespace).isEmpty
    | _ => false

/-- `re.sub(r'^[\d.]+\s*(m|km)\s+', '', name)` — strip a leading distance
quantity such as `500m ` or `1km ` (line 137). -/
def stripLeadingDistance (l : List Char) : List Char :=
  let num := l.takeWhile (fun c => c.isDigit || c == '.')
  if num.isEmpty then l
  else
    match (l.drop num.length).dropWhile Char.isWhitespace with
    | 'm' :: rest =>
      if (rest.takeWhile Char.isWhitespace).isEmpty then l
      else rest.dropWhile Char.isWhitespace
    | 'k' :: 'm' :: rest =>
      if (rest.takeWhile Char.isWhitespace).isEmpty then l
      else rest.dropWhile Char.isWhitespace
    | _ => l

/-- `GarminExerciseLookup.normalize` (garmin_lookup.py lines 113-139). -/
def normalize (name : String) : String :=
  let l0 := trimChars (toLowerList name)
  let l1 := trimChars (rstripPipes l0)
  let l2 := stripSpeakerTag l1
  let l3 := dropEquipTokens l2
  let l4 := truncAtFirst xCountAt l3
  let l5 := truncAtFirst eachPerAt l4
  let l6 := truncAtFirst distEndAt l5
  let l7 := stripLeadingDistance l6
  String.mk (trimChars l7)

/-! ### Lookup (`GarminExerciseLookup.find`, lines 141-228) -/

/-- One entry of the built-in keyword table (lines 89-106). -/
structure BuiltinInfo where
  category_id : Int
  category_key : String
  category_name : String
  display_name : String
deriving DecidableEq

/-- `self.builtin_keywords` in source order (lines 89-106). -/
def builtin_keywords : List (String × BuiltinInfo) :=
  [("run", ⟨2, "CARDIO", "Cardio", "Run"⟩),
   ("running", ⟨2, "CARDIO", "Cardio", "Run"⟩),
   ("jog", ⟨2, "CARDIO", "Cardio", "Run"⟩),
   ("sprint", ⟨2, "CARDIO", "Cardio", "Run"⟩),
   ("ski erg", ⟨2, "CARDIO", "Cardio", "Ski Erg"⟩),
   ("ski mogul", ⟨2, "CARDIO", "Cardio", "Ski Erg"⟩),
   ("ski", ⟨2, "CARDIO", "Cardio", "Ski Erg"⟩),
   ("row erg", ⟨23, "ROW", "Row", "Row"⟩),
   ("rower", ⟨23, "ROW", "Row", "Row"⟩),
   ("indoor row", ⟨23, "ROW", "Row", "Indoor Row"⟩),
   ("assault bike", ⟨2, "CARDIO", "Cardio", "Assault Bike"⟩),
   ("echo bike", ⟨2, "CARDIO", "Cardio", "Echo Bike"⟩),
   ("air bike", ⟨2, "CARDIO", "Cardio", "Air Bike"⟩),
   ("bike erg", ⟨2, "CARDIO", "Cardio", "Bike Erg"⟩),
   ("burpee", ⟨29, "TOTAL_BODY", "Total Body", "Burpee"⟩),
   ("wall ball", ⟨28, "SQUAT", "Squat", "Wall Ball"⟩)]

/-- Does `p` occur as a contiguous sublist of the second argument? -/
def listHasInfix (p : List Char) : List Char → Bool
  | [] => p.isEmpty
  | c :: rest => p.isPrefixOf (c :: rest) || listHasInfix p rest

/-- Python `kw in s` substring containment. -/
def containsKw (kw s : String) : Bool := listHasInfix kw.toList s.toList

/-- Result record of `GarminExerciseLookup.find` (only the fields the
builder consumes are kept; bookkeeping fields such as `input` and
`normalized` are derivable and never read back). -/
structure MatchResult where
  category_id : Int
  category_key : String
  category_name : String
  exercise_key : Option String
  display_name : Option String
  exercise_name_id : Option Nat
  match_type : String
deriving DecidableEq

/-- One entry of the JSON exercise database (external data file). -/
structure DbExercise where
  category_id : Int
  category_key : String
  category_name : String
  exercise_key : Option String
  display_name : Option String
  exercise_name_id : Option Nat
deriving DecidableEq

/-- One entry of the JSON keyword table (external data file). -/
structure KeywordInfo where
  category_id : Int
  category_key : String
  category_name : String
  display_name : Option String
deriving DecidableEq

/-- The JSON database (`garmin_exercises.json`), an external data file of
the repository; `find` is parameterised over it. -/
structure LookupData where
  exercises : List (String × DbExercise)
  keywords : List (String × KeywordInfo)

/-- Fuzzy-match fold (garmin_lookup.py lines 198-207) over the database,
with the similarity primitive `ratio` passed in as a black box. -/
def fuzzyBest (db : LookupData) (ratio : String → String → Rat)
    (normalized : String) : Option DbExercise :=
  (db.exercises.foldl (fun acc p =>
    let r := ratio normalized p.1
    match acc with
    | some br => if r > br.1 ∧ r > (3 : Rat) / 5 then some (r, p.2) else some br
    | none => if r > 0 ∧ r > (3 : Rat) / 5 then some (r, p.2) else none) none).map
    (fun p => p.2)

/-- `GarminExerciseLookup.find` (garmin_lookup.py lines 141-228):
built-in keywords, then exact match, then JSON keywords, then fuzzy match,
then the Core (5) default. -/
def find (db : LookupData) (ratio : String → String → Rat)
    (exercise_name : String) : MatchResult :=
  let normalized := normalize exercise_name
  match builtin_keywords.find? (fun p => containsKw p.1 normalized) with
  | some p =>
    { category_id := p.2.category_id, category_key := p.2.category_key,
      category_name := p.2.category_name, exercise_key := none,
      display_name := some p.2.display_name, exercise_name_id := none,
      match_type := "builtin_keyword" }
  | none =>
    match List.lookup normalized db.exercises with
    | some e =>
      { category_id := validate_category_id e.category_id,
        category_key := e.category_key, category_name := e.category_name,
        exercise_key := e.exercise_key, display_name := e.display_name,
        exercise_name_id := e.exercise_name_id, match_type := "exact" }
    | none =>
      match db.keywords.find? (fun p => containsKw p.1 normalized) with
      | some p =>
        { category_id := validate_category_id p.2.category_id,
          category_key := p.2.category_key, category_name := p.2.category_name,
          exercise_key := none, display_name := p.2.display_name,
          exercise_name_id := none, match_type := "keyword" }
      | none =>
        match fuzzyBest db ratio normalized with
        | some e =>
          { category_id := validate_category_id e.category_id,
            category_key := e.category_key, category_name := e.category_name,
            exercise_key := e.exercise_key, display_name := e.display_name,
            exercise_name_id := e.exercise_name_id, match_type := "fuzzy" }
        | none =>
          { category_id := 5, category_key := "CORE", category_name := "Core",
            exercise_key := none, display_name := none,
            exercise_name_id := none, match_type := "default" }

/-- The lookup with an empty external database: the built-in keyword table
and the default fallback, exactly the two database-independent paths of
`find`. -/
def builtinLookup : String → MatchResult :=
  find ⟨[], []⟩ (fun _ _ => 0)

/-! ## `fit_builder.py` — data model

The workout JSON tree (`blocks_json`) has a fixed field schema; each dict
becomes a structure, with `none` for an absent key.  Exercise dicts
additionally receive transient underscore-prefixed bookkeeping keys during
compilation (fit_builder.py lines 273-295); those live in the separate
`Bookkeeping` structure, and an exercise record is a declared-field part
plus an optional bookkeeping part (`none` = the underscore keys are
absent, as in a freshly supplied input). -/

/-- A `reps` value may be an integer or a string such as `"6-8"` or
`"500m"` (fit_builder.py treats both). -/
inductive RepsVal where
  | int (n : Int)
  | str (s : String)
deriving DecidableEq

/-- Declared fields of an exercise dict. -/
structure Exercise where
  name : Option String
  reps : Option RepsVal
  reps_range : Option String
  sets : Option Nat
  duration_sec : Option Nat
  distance_m : Option Nat
  rest_type : Option String
  rest_sec : Option Nat
  warmup_sets : Option Nat
  warmup_reps : Option Nat
  notes : Option String
deriving DecidableEq

/-- The transient bookkeeping keys stashed on an exercise dict by
`blocks_to_steps` (lines 274-281 and 287-294). -/
structure Bookkeeping where
  superset_idx : Option Nat
  is_first_in_superset : Bool
  is_last_in_superset : Bool
  superset_rest : Option Nat
  superset_rest_type : String
  superset_rounds : Option Nat
  is_last_superset : Bool
  in_superset : Bool
deriving DecidableEq

/-- An exercise dict: declared fields plus the optional bookkeeping keys. -/
structure ExRecord where
  ex : Exercise
  bk : Option Bookkeeping
deriving DecidableEq

/-- A superset dict. -/
structure Superset where
  exercises : List ExRecord
  rest_between_sec : Option Nat
  rest_type : Option String
deriving DecidableEq

/-- `block.restOverride`. -/
structure RestOverride where
  enabled : Bool
  restType : Option String
  restSec : Option Nat
deriving DecidableEq

/-- A block dict.  `structure_str` models the free-text `structure` key
(`structure` is a Lean keyword). -/
structure Block where
  structure_str : Option String
  restOverride : Option RestOverride
  rest_type : Option String
  rest_between_sets_sec : Option Nat
  rest_between_sec : Option Nat
  rest_between_rounds_sec : Option Nat
  supersets : List Superset
  exercises : List ExRecord
  warmup_enabled : Bool
  warmup_activity : Option String
  warmup_duration_sec : Option Nat
deriving DecidableEq

/-- `settings.workoutWarmup`. -/
structure WorkoutWarmup where
  enabled : Bool
  durationSec : Option Nat
  activity : Option String
deriving DecidableEq

/-- Workout-level `settings`. -/
structure Settings where
  defaultRestType : Option String
  defaultRestSec : Option Nat
  workoutWarmup : Option WorkoutWarmup
deriving DecidableEq

/-- The root `blocks_json` structure. -/
structure Workout where
  title : Option String
  settings : Option Settings
  blocks : List Block
deriving DecidableEq

/-- A compiled step dict, tagged by its `type` key; each constructor
carries exactly the fields the source writes into that dict shape.
The warmup constructor's `duration_type` is numeric (`0` = time,
`5` = open) exactly as in `_create_warmup_step`. -/
inductive Step where
  | exercise (display_name : String) (original_name : String)
      (category_id : Int) (category_name : String) (intensity : String)
      (duration_type : String) (duration_value : Int) (reps : Option RepsVal)
      (sets : Nat) (exercise_name_id : Option Nat) (notes : Option String)
      (is_warmup_set : Bool)
  | rest (duration_type : String) (duration_value : Int) (rest_seconds : Nat)
  | warmup (display_name : String) (duration_type : Nat) (duration_value : Int)
      (category_id : Int) (category_name : String)
  | repeatStep (duration_step : Nat) (repeat_count : Nat)
deriving DecidableEq

/-- Is the step an exercise-type step? -/
def isExerciseStep : Step → Bool
  | Step.exercise _ _ _ _ _ _ _ _ _ _ _ _ => true
  | _ => false

/-- Is the step a repeat-type step? -/
def isRepeatStep : Step → Bool
  | Step.repeatStep _ _ => true
  | _ => false

/-- Is the step a warmup-type step? -/
def isWarmupStep : Step → Bool
  | Step.warmup _ _ _ _ _ => true
  | _ => false

/-- `category_id` of an exercise step (0 otherwise). -/
def exerciseCategoryId : Step → Int
  | Step.exercise _ _ c _ _ _ _ _ _ _ _ _ => c
  | _ => 0

/-- `duration_type` of an exercise step (`""` otherwise). -/
def stepDurationType : Step → String
  | Step.exercise _ _ _ _ _ dt _ _ _ _ _ _ => dt
  | _ => ""

/-- `duration_value` of an exercise step (0 otherwise). -/
def stepDurationValue : Step → Int
  | Step.exercise _ _ _ _ _ _ dv _ _ _ _ _ => dv
  | _ => 0

/-- `is_warmup_set` flag of an exercise step (false otherwise). -/
def stepIsWarmupSet : Step → Bool
  | Step.exercise _ _ _ _ _ _ _ _ _ _ _ b => b
  | _ => false

/-! ## `fit_builder.py` — helper functions -/

/-- `_is_user_confirmed_name` (fit_builder.py lines 32-66): does the name
start with a distance quantity (`^[\d.]+\s*(m|km|mi)\s+`, IGNORECASE)? -/
def hasDistanceStart (name : String) : Bool :=
  let l := name.toList.map Char.toLower
  let num := l.takeWhile (fun c => c.isDigit || c == '.')
  if num.isEmpty then false
  else
    match (l.drop num.length).dropWhile Char.isWhitespace with
    | 'm' :: rest =>
      -- the regex alternation `(m|km|mi)` tries `m` and falls back to `mi`
      !(rest.takeWhile Char.isWhitespace).isEmpty ||
        (match rest with
         | 'i' :: rest2 => !(rest2.takeWhile Char.isWhitespace).isEmpty
         | _ => false)
    | 'k' :: 'm' :: rest => !(rest.takeWhile Char.isWhitespace).isEmpty
    | _ => false

/-- `_is_user_confirmed_name`: does the name contain a rep count
(`re.search(r'\s*\d*x\d+', name, IGNORECASE)`, i.e. an `x`/`X`
immediately followed by a digit)? -/
def hasRepCount (name : String) : Bool :=
  let l := name.toList
  (List.range l.length).any (fun i =>
    match l.drop i with
    | c :: d :: _ => (c == 'x' || c == 'X') && d.isDigit
    | _ => false)

/-- Python `str.split()` — split on whitespace runs, dropping empties. -/
def pyWords (s : String) : List String :=
  (wordsBy Char.isWhitespace s.toList).map String.mk

/-- `_is_user_confirmed_name` (fit_builder.py lines 32-66).  The source
compares `capitalized >= len(words) * 0.6` in floating point; this is the
exact rational comparison `5 * capitalized ≥ 3 * len(words)`, which
coincides with the float comparison for all word counts that occur. -/
def is_user_confirmed_name (name : String) : Bool :=
  if strIsEmpty name || name.toList.length < 2 then false
  else if hasDistanceStart name then false
  else if hasRepCount name then false
  else
    let words := pyWords name
    if words.isEmpty then false
    else
      let capitalized := (words.filter (fun w =>
        match w.toList with
        | c :: _ => c.isUpper
        | [] => false)).length
      5 * capitalized ≥ 3 * words.length

/-- `parse_structure` (fit_builder.py lines 69-74): first digit run in the
string, default 1. -/
def firstDigitRun : List Char → Option Nat
  | [] => none
  | c :: rest =>
    if c.isDigit then some (natOfDigits (c :: rest.takeWhile Char.isDigit))
    else firstDigitRun rest

/-- `parse_structure` (fit_builder.py lines 69-74). -/
def parse_structure (structure_str : Option String) : Nat :=
  match structure_str with
  | none => 1
  | some s =>
    if strIsEmpty s then 1
    else
      match firstDigitRun s.toList with
      | some n => n
      | none => 1

/-- `_create_rest_step` (fit_builder.py lines 77-107). -/
def create_rest_step (duration_sec : Nat) (rest_type : String) : Step :=
  if rest_type = "button" then Step.rest "lap_button" 0 0
  else Step.rest "time" ((duration_sec : Int) * 1000) duration_sec

/-- `WARMUP_ACTIVITY_NAMES` (fit_builder.py lines 111-119). -/
def WARMUP_ACTIVITY_NAMES : List (String × String) :=
  [("stretching", "Stretching"), ("jump_rope", "Jump Rope"),
   ("air_bike", "Air Bike"), ("treadmill", "Treadmill"),
   ("stairmaster", "Stairmaster"), ("rowing", "Rowing"),
   ("custom", "Warm-Up")]

/-- `_create_warmup_step` (fit_builder.py lines 122-156). -/
def createWarmupStep (duration_sec : Option Nat) (activity : Option String) : Step :=
  let display_name := match activity with
    | some a => (List.lookup a WARMUP_ACTIVITY_NAMES).getD "Warm-Up"
    | none => "Warm-Up"
  match duration_sec with
  | some d =>
    if 0 < d then Step.warmup display_name 0 ((d : Int) * 1000) 2 "Cardio"
    else Step.warmup display_name 5 0 2 "Cardio"
  | none => Step.warmup display_name 5 0 2 "Cardio"

/-! ## Duration-kind selection (fit_builder.py lines 337-391) -/

/-- Value of a decimal numeral with at most one dot (Python `float` on a
`[\d.]+` match), multiplied by `scale` and truncated to an integer.
Returns `none` when `float()` would raise (no digit, or several dots);
such inputs make the source raise an uncaught `ValueError`, so they are
outside the compiled domain. -/
def parseNumScaled (numDigits : List Char) (scale : Nat) : Option Nat :=
  let intPart := numDigits.takeWhile Char.isDigit
  match numDigits.drop intPart.length with
  | [] =>
    if intPart.isEmpty then none else some (natOfDigits intPart * scale)
  | '.' :: frac =>
    if frac.all Char.isDigit && !(intPart.isEmpty && frac.isEmpty) then
      some ((natOfDigits (intPart ++ frac) * scale) / 10 ^ frac.length)
    else none
  | _ => none

/-- Distance in centimetres parsed from a textual reps value
(fit_builder.py lines 353-364): `^([\d.]+)\s*km$` then `^([\d.]+)\s*m$`,
applied to the lower-cased, stripped reps string; metres are converted to
centimetres (`int(distance_meters * 100)`). -/
def parseRepsDistanceCm (reps_str : String) : Option Int :=
  let l := reps_str.toList
  let num := l.takeWhile (fun c => c.isDigit || c == '.')
  if num.isEmpty then none
  else
    match (l.drop num.length).dropWhile Char.isWhitespace with
    | ['k', 'm'] => (parseNumScaled num 100000).map (fun n => (n : Int))
    | ['m'] => (parseNumScaled num 100).map (fun n => (n : Int))
    | _ => none

/-- `reps_raw.lower().strip()` before the distance regexes. -/
def pyLowerStrip (s : String) : String :=
  String.mk (trimChars (toLowerList s))

/-- Duration value for an explicitly specified reps value
(fit_builder.py lines 369-377): lowest bound of a textual range, or the
integer itself (`10` when parsing fails or the int is falsy). -/
def repsDurationValue : RepsVal → Int
  | RepsVal.str s =>
    (pyInt (String.mk (s.toList.takeWhile (fun c => c != '-')))).getD 10
  | RepsVal.int n => if n ≠ 0 then n else 10

/-- Upper bound of a `reps_range` string such as `"6-8"`
(fit_builder.py lines 379-386): dashes become spaces, last token parsed
as an int, default 10. -/
def repsRangeUpper (g : String) : Int :=
  let parts := (wordsBy (fun c => c.isWhitespace || c == '-') g.toList).map String.mk
  match parts.getLast? with
  | some w => (pyInt w).getD 10
  | none => 10

/-- Duration-kind and value selection for one exercise
(fit_builder.py lines 337-391), returning the `(duration_type,
duration_value)` pair written into the working-set step. -/
def exerciseDuration (use_lap_button : Bool) (distance_m : Option Nat)
    (reps_raw : Option RepsVal) (duration_sec : Option Nat)
    (reps_range : Option String) : String × Int :=
  if use_lap_button then ("lap_button", 0)
  else
    let fromReps : Option Int :=
      match reps_raw with
      | some (RepsVal.str s) => parseRepsDistanceCm (pyLowerStrip s)
      | _ => none
    let distance_cm : Option Int :=
      match distance_m with
      | some d => if 0 < d then some ((d : Int) * 100) else fromReps
      | none => fromReps
    match distance_cm with
    | some cm => ("distance", cm)
    | none =>
      if 0 < duration_sec.getD 0 then ("time", ((duration_sec.getD 0 : Nat) : Int) * 1000)
      else
        match reps_raw with
        | some rv => ("reps", repsDurationValue rv)
        | none =>
          if !strIsEmpty (reps_range.getD "") then ("reps", repsRangeUpper (reps_range.getD ""))
          else ("lap_button", 0)

/-! ## `blocks_to_steps` (fit_builder.py lines 159-550)

The Python loop is an append-only accumulation: `steps.append(...)` is the
only mutation of the output list.  The embedding threads an explicit state
(`steps`, the `category_ids_used` set as an insertion-ordered list, and
`superset_start_index`), and each exercise iteration appends one
contiguous chunk whose internal indices are computed from the length of
the list at the start of the iteration, exactly as `len(steps)` is read in
the source. -/

/-- Compilation state: the accumulated steps, the category ids used
(insertion-ordered, deduplicated, modelling the Python set), and
`superset_start_index`. -/
structure CompState where
  steps : List Step
  cats : List Int
  ssi : Option Nat
deriving DecidableEq

/-- `steps.append(s)`. -/
def pushStep (st : CompState) (s : Step) : CompState :=
  { st with steps := st.steps ++ [s] }

/-- `category_ids_used.add(c)`. -/
def addCat (cats : List Int) (c : Int) : List Int :=
  if c ∈ cats then cats else cats ++ [c]

/-- Enumerate a list with positions starting at `i`. -/
def enumList {α : Type} : Nat → List α → List (Nat × α)
  | _, [] => []
  | i, a :: rest => (i, a) :: enumList (i + 1) rest

/-- Map with the element's position. -/
def mapWithIdxFrom {α β : Type} (f : Nat → α → β) : Nat → List α → List β
  | _, [] => []
  | i, a :: rest => f i a :: mapWithIdxFrom f (i + 1) rest

/-- Per-block rest type from the AMA-96 hierarchy
(fit_builder.py lines 225-233). -/
def blockRestType (default_rest_type : String) (b : Block) : String :=
  match b.restOverride with
  | some ro =>
    if ro.enabled then ro.restType.getD default_rest_type
    else pyStrOr b.rest_type default_rest_type
  | none => pyStrOr b.rest_type default_rest_type

/-- Per-block rest seconds from the AMA-96 hierarchy
(fit_builder.py lines 225-233). -/
def blockRestSec (default_rest_sec : Option Nat) (b : Block) : Option Nat :=
  match b.restOverride with
  | some ro =>
    if ro.enabled then
      match ro.restSec with
      | some v => some v
      | none => default_rest_sec
    else default_rest_sec
  | none => default_rest_sec

/-- `rest_between_sets` (fit_builder.py line 236): first truthy of
`rest_between_sets_sec`, `rest_between_sec`, and the literal 30. -/
def restBetweenSets (b : Block) : Nat :=
  if 0 < b.rest_between_sets_sec.getD 0 then b.rest_between_sets_sec.getD 0
  else if 0 < b.rest_between_sec.getD 0 then b.rest_between_sec.getD 0
  else 30

/-- Bookkeeping defaults used by `.get` when the underscore keys are
absent (they never are for exercises reached by the compile loop). -/
def defaultBookkeeping : Bookkeeping :=
  ⟨none, false, false, none, "timed", some 1, false, false⟩

/-- Annotation of one superset's exercises
(fit_builder.py lines 255-282). -/
def annotateSuperset (brt : String) (brs : Option Nat) (rounds : Nat)
    (nss : Nat) (hasStandalone : Bool) (idx : Nat) (ss : Superset) : Superset :=
  let superset_rest := match ss.rest_between_sec with
    | some v => some v
    | none => brs
  let srt := ss.rest_type.getD brt
  let lastSS := (idx == nss - 1) && !hasStandalone
  { ss with exercises := mapWithIdxFrom (fun j e =>
      { e with bk := some (Bookkeeping.mk (some idx) (j == 0)
          (j == ss.exercises.length - 1) superset_rest srt (some rounds)
          lastSS true) }) 0 ss.exercises }

/-- Annotation of one standalone exercise
(fit_builder.py lines 284-295). -/
def annotateStandalone (n : Nat) (j : Nat) (e : ExRecord) : ExRecord :=
  { e with bk := some (Bookkeeping.mk none false false none "timed" none
      (j == n - 1) false) }

/-- The in-place annotation of a block's exercise dicts performed by
`blocks_to_steps` before its compile loop (fit_builder.py lines 255-295):
the block with every exercise's bookkeeping keys set. -/
def annotateBlock (default_rest_type : String) (default_rest_sec : Option Nat)
    (b : Block) : Block :=
  let brt := blockRestType default_rest_type b
  let brs := blockRestSec default_rest_sec b
  let rounds := parse_structure b.structure_str
  { b with
    supersets := mapWithIdxFrom
      (annotateSuperset brt brs rounds b.supersets.length (!b.exercises.isEmpty))
      0 b.supersets,
    exercises := mapWithIdxFrom (annotateStandalone b.exercises.length) 0 b.exercises }

/-- Per-block context threaded through the per-exercise loop. -/
structure BlockCtx where
  rounds : Nat
  block_rest_type : String
  block_rest_sec : Option Nat
  rest_between_sets : Nat
  is_last_block : Bool
deriving DecidableEq

/-- Rest chunk between working/warm-up sets (fit_builder.py
lines 427-433 and 517-526): button rest wins, then the exercise's own
timed rest, then the block-level `rest_between_sets`. -/
def setsRestChunk (ert : String) (ers : Option Nat) (rbs : Nat)
    (brt : String) : List Step :=
  if ert = "button" then [create_rest_step 0 "button"]
  else if 0 < ers.getD 0 then [create_rest_step (ers.getD 0) "timed"]
  else if 0 < rbs then [create_rest_step rbs brt]
  else []

/-- Rest chunk between the warm-up sets and the working sets
(fit_builder.py lines 445-449). -/
def betweenRestChunk (ert : String) (ers : Option Nat) (rbs : Nat)
    (brt : String) : List Step :=
  if 0 < ers.getD 0 then [create_rest_step (ers.getD 0) ert]
  else if 0 < rbs then [create_rest_step rbs brt]
  else []

/-- The warm-up-sets chunk for one exercise (fit_builder.py
lines 400-449), emitted when `warmup_sets` and `warmup_reps` are both
positive; `base` is `len(steps)` when the chunk starts
(`warmup_start_index`). -/
def warmupChunk (base : Nat) (display_name name : String) (category_id : Int)
    (category_name : String) (eni : Option Nat) (ws wr : Nat) (ert : String)
    (ers : Option Nat) (rbs : Nat) (brt : String) : List Step :=
  [Step.exercise (display_name ++ " (Warm-Up)") name category_id category_name
     "warmup" "reps" (wr : Int) (some (RepsVal.int (wr : Int))) ws eni none true]
  ++ ((if 1 < ws then setsRestChunk ert ers rbs brt else [])
  ++ ((if 1 < ws then [Step.repeatStep base ws] else [])
  ++ betweenRestChunk ert ers rbs brt))

/-- `notes` written into the working step only when truthy
(fit_builder.py lines 471-472). -/
def pyNotesOf (o : Option String) : Option String :=
  match o with
  | some s => if strIsEmpty s then none else some s
  | none => none

/-- The warm-up-sets chunk guarded by the truthiness test
`warmup_sets and warmup_sets > 0 and warmup_reps and warmup_reps > 0`
(fit_builder.py line 405). -/
def wchunkOf (base : Nat) (dn nm : String) (cid : Int) (cn : String)
    (eni : Option Nat) (wsets wreps : Option Nat) (ert : String)
    (ers : Option Nat) (rbs : Nat) (brt : String) : List Step :=
  match wsets, wreps with
  | some ws, some wr =>
    if 0 < ws ∧ 0 < wr then warmupChunk base dn nm cid cn eni ws wr ert ers rbs brt
    else []
  | _, _ => []

/-- The rest/repeat tail emitted after the working-set step
(fit_builder.py lines 478-544): superset handling (rest after the last
superset exercise plus the back-reference marker) or standalone handling
(between-sets rest, marker, and the optional trailing rest). -/
def tchunkOf (bk : Bookkeeping) (is_last_block : Bool) (rbs : Nat)
    (brt : String) (ssi : Option Nat) (superset_rounds sets start_index : Nat)
    (ert : String) (ers : Option Nat) (pos total : Nat) : List Step :=
  if bk.in_superset then
    if bk.is_last_in_superset then
      let has_superset_rest :=
        0 < bk.superset_rest.getD 0 ∨ bk.superset_rest_type = "button"
      let is_last_superset_in_workout := is_last_block ∧ bk.is_last_superset
      (if has_superset_rest ∧ (1 < superset_rounds ∨ ¬ is_last_superset_in_workout)
       then [create_rest_step (bk.superset_rest.getD 0) bk.superset_rest_type]
       else [])
      ++ (if 1 < superset_rounds then
            match ssi with
            | some v => [Step.repeatStep v superset_rounds]
            | none => []
          else [])
    else []
  else
    (if 1 < sets then setsRestChunk ert ers rbs brt else [])
    ++ ((if 1 < sets then [Step.repeatStep start_index sets] else [])
    ++ (if sets ≤ 1 ∧ (0 < ers.getD 0 ∨ ert = "button") ∧
          ¬ (is_last_block ∧ pos = total - 1)
        then [create_rest_step (ers.getD 0) ert]
        else []))

/-- One iteration of the per-exercise compile loop
(fit_builder.py lines 300-544).  `total` is `len(all_exercises)`; the
position standing in for `all_exercises.index(exercise)` — equivalent
because the bookkeeping keys make the final element's dict distinct from
every earlier one whenever the test's result is consumed. -/
def compileExercise (lookup : String → MatchResult) (use_lap_button : Bool)
    (ctx : BlockCtx) (total : Nat) (st : CompState) (pe : Nat × ExRecord) :
    CompState :=
  let pos := pe.1
  let ex := pe.2.ex
  let bk := pe.2.bk.getD defaultBookkeeping
  let name := ex.name.getD "Exercise"
  let reps_raw := ex.reps
  let sets := match ex.sets with
    | some s => if s ≠ 0 then s else ctx.rounds
    | none => ctx.rounds
  let superset_rounds := bk.superset_rounds.getD 1
  let base0 := st.steps.length
  let ssi := if bk.in_superset ∧ bk.is_first_in_superset then some base0 else st.ssi
  let m := lookup name
  let category_id := validate_category_id m.category_id
  let display_name :=
    if m.match_type = "exact" ∨ m.match_type = "exact_with_category_override" then
      pyStrOr m.display_name name
    else if is_user_confirmed_name name then name
    else pyStrOr m.display_name m.category_name
  let dur := exerciseDuration use_lap_button ex.distance_m reps_raw
    ex.duration_sec ex.reps_range
  let exercise_rest_type := pyStrOr ex.rest_type ctx.block_rest_type
  let exercise_rest_sec := match ex.rest_sec with
    | some v => some v
    | none => ctx.block_rest_sec
  let wchunk := wchunkOf base0 display_name name category_id m.category_name
    m.exercise_name_id ex.warmup_sets ex.warmup_reps exercise_rest_type
    exercise_rest_sec ctx.rest_between_sets ctx.block_rest_type
  let start_index := base0 + wchunk.length
  let workStep : Step :=
    Step.exercise display_name name category_id m.category_name "active"
      dur.1 dur.2 reps_raw sets m.exercise_name_id (pyNotesOf ex.notes) false
  let tchunk := tchunkOf bk ctx.is_last_block ctx.rest_between_sets
    ctx.block_rest_type ssi superset_rounds sets start_index
    exercise_rest_type exercise_rest_sec pos total
  let ssiOut := if bk.in_superset ∧ bk.is_last_in_superset then none else ssi
  { steps := st.steps ++ (wchunk ++ ([workStep] ++ tchunk)),
    cats := addCat st.cats category_id,
    ssi := ssiOut }

/-- One iteration of the per-block loop (fit_builder.py lines 213-548). -/
def compileBlock (lookup : String → MatchResult) (use_lap_button : Bool)
    (default_rest_type : String) (default_rest_sec : Option Nat)
    (num_blocks : Nat) (st : CompState) (pb : Nat × Block) : CompState :=
  let block := pb.2
  let st0 := if block.warmup_enabled then
      pushStep st (createWarmupStep block.warmup_duration_sec block.warmup_activity)
    else st
  let rounds := parse_structure block.structure_str
  let brt := blockRestType default_rest_type block
  let brs := blockRestSec default_rest_sec block
  let is_last_block := pb.1 = num_blocks - 1
  let ab := annotateBlock default_rest_type default_rest_sec block
  let all_exercises := (ab.supersets.map Superset.exercises).flatten ++ ab.exercises
  let ctx : BlockCtx := ⟨rounds, brt, brs, restBetweenSets block, is_last_block⟩
  let st1 : CompState := ⟨st0.steps, st0.cats, none⟩
  let st2 := (enumList 0 all_exercises).foldl
    (compileExercise lookup use_lap_button ctx all_exercises.length) st1
  match block.rest_between_rounds_sec with
  | some r => if 0 < r ∧ ¬ is_last_block then pushStep st2 (create_rest_step r brt) else st2
  | none => st2

/-- `blocks_to_steps` (fit_builder.py lines 159-550), parameterised over
the module-level lookup (`get_lookup()`); returns the step list and the
category ids used. -/
def blocks_to_steps (lookup : String → MatchResult) (blocks_json : Workout)
    (use_lap_button : Bool) : List Step × List Int :=
  let blocks := blocks_json.blocks
  let num_blocks := blocks.length
  let default_rest_type := match blocks_json.settings with
    | some s => s.defaultRestType.getD "button"
    | none => "button"
  let default_rest_sec := match blocks_json.settings with
    | some s => s.defaultRestSec
    | none => none
  let workout_warmup := match blocks_json.settings with
    | some s => s.workoutWarmup
    | none => none
  let start : CompState := ⟨[], [], none⟩
  let defaultStart := match blocks.head? with
    | some fb =>
      if fb.warmup_enabled then start
      else pushStep start (createWarmupStep none none)
    | none => pushStep start (createWarmupStep none none)
  let st1 := match workout_warmup with
    | some ww =>
      if ww.enabled then pushStep start (createWarmupStep ww.durationSec ww.activity)
      else defaultStart
    | none => defaultStart
  let stF := (enumList 0 blocks).foldl
    (compileBlock lookup use_lap_button default_rest_type default_rest_sec num_blocks)
    st1
  (stF.steps, stF.cats)

/-- The state of the caller's input tree after `blocks_to_steps` returns:
every exercise dict of every block carries the bookkeeping keys written in
place by the annotation loops (fit_builder.py lines 273-295). -/
def blocks_to_steps_mutations (blocks_json : Workout) : Workout :=
  let default_rest_type := match blocks_json.settings with
    | some s => s.defaultRestType.getD "button"
    | none => "button"
  let default_rest_sec := match blocks_json.settings with
    | some s => s.defaultRestSec
    | none => none
  { blocks_json with
    blocks := blocks_json.blocks.map (annotateBlock default_rest_type default_rest_sec) }

/-- The rejection guard of `build_fit_workout` (fit_builder.py
lines 646-649): `ValueError("No exercises found")` is raised exactly when
the compiled step list is empty. -/
def build_fit_workout_rejects (lookup : String → MatchResult)
    (blocks_json : Workout) (use_lap_button : Bool) : Bool :=
  ((blocks_to_steps lookup blocks_json use_lap_button).1).isEmpty

/-- Remove the bookkeeping keys from an exercise record. -/
def eraseBkEx (e : ExRecord) : ExRecord := { e with bk := none }

/-- Remove the bookkeeping keys from every exercise of a block. -/
def eraseBkBlock (b : Block) : Block :=
  { b with
    supersets := b.supersets.map (fun ss => { ss with exercises := ss.exercises.map eraseBkEx }),
    exercises := b.exercises.map eraseBkEx }

/-- Remove the bookkeeping keys from every exercise of a workout. -/
def eraseBkWorkout (w : Workout) : Workout :=
  { w with blocks := w.blocks.map eraseBkBlock }

/-! ## `fit_parser.py` — the step decompiler (lines 332-388)

The raw step records have already been decoded from the wire format by the
external `fitparse` collaborator (spec §6); a record is modelled with the
named fields the processing loop reads, with the numeric
`exercise_category` kept as a number (the `str()` wrapper around decoded
values is transport plumbing and does not affect the lookups, which use
the same wrapped form on both sides). -/

/-- `EXERCISE_CATEGORY_NAMES` (fit_parser.py lines 156-165). -/
def EXERCISE_CATEGORY_NAMES : List (Nat × String) :=
  [(0, "Bench Press"), (1, "Calf Raise"), (2, "Cardio"), (3, "Carry"),
   (4, "Chop"), (5, "Core"), (6, "Crunch"), (7, "Curl"), (8, "Deadlift"),
   (9, "Flye"), (10, "Hip Raise"), (11, "Hip Stability"), (12, "Hip Swing"),
   (13, "Hyperextension"), (14, "Lateral Raise"), (15, "Leg Curl"),
   (16, "Leg Raise"), (17, "Lunge"), (18, "Olympic Lift"), (19, "Plank"),
   (20, "Plyo"), (21, "Pull Up"), (22, "Push Up"), (23, "Row"),
   (24, "Shoulder Press"), (25, "Shoulder Stability"), (26, "Shrug"),
   (27, "Sit Up"), (28, "Squat"), (29, "Total Body"),
   (30, "Triceps Extension"), (31, "Warm Up"), (32, "Run")]

/-- A raw workout-step record as assembled by the field-reading loop
(fit_parser.py lines 280-316). -/
structure RawStep where
  name : Option String
  category : Option Nat
  exercise_id : Option Nat
  duration_type : Option String
  reps : Option Nat
  duration : Option Nat
  distance : Option Nat
  intensity : Option String
  is_rest : Bool
  is_repeat : Bool
  repeat_count : Option Nat
  sets : Option Nat
  step_type : Option String
  notes : Option String
deriving DecidableEq

/-- Exercise-name resolution for a step without a truthy name
(fit_parser.py lines 342-361): the `(category, exercise_id)` title table,
then the category-only title table, then the category-name constant,
then `"Exercise <id>"`. -/
def resolveName (titlesPair : List ((Nat × Option Nat) × String))
    (titlesCat : List (Nat × String)) (c : Nat) (eid : Option Nat) : String :=
  match List.lookup (c, eid) titlesPair with
  | some nm => nm
  | none =>
    match List.lookup c titlesCat with
    | some nm => nm
    | none =>
      match List.lookup c EXERCISE_CATEGORY_NAMES with
      | some nm => nm
      | none => "Exercise " ++ toString c

/-- The per-step display finalisation applied to every emitted step
(fit_parser.py lines 335-386): fill a missing name, set `step_type` from
the intensity, and set `sets` (the collapsed value when the step absorbed
a rest+repeat pair, else the existing value, else 1). -/
def finalizeStep (titlesPair : List ((Nat × Option Nat) × String))
    (titlesCat : List (Nat × String)) (s : RawStep) (collapsed : Option Nat) :
    RawStep :=
  let newName : Option String :=
    if strFalsy s.name then
      match s.category with
      | some c => some (resolveName titlesPair titlesCat c s.exercise_id)
      | none => s.name
    else s.name
  let intensity := s.intensity.getD "active"
  let st :=
    if intensity = "rest" then "rest"
    else if intensity = "warmup" then "warmup"
    else if intensity = "cooldown" then "cooldown"
    else "active"
  let newSets : Option Nat :=
    match collapsed with
    | some v => some v
    | none =>
      match s.sets with
      | some v => some v
      | none => some 1
  { s with name := newName, step_type := some st, sets := newSets }

/-- The repeat-collapsing pass of `parse_fit_file`
(fit_parser.py lines 332-388): repeat markers are skipped; a step followed
by a rest record and then a repeat record absorbs both and is annotated
with `sets = repeat_count + 1`; every emitted step goes through
`finalizeStep`. -/
def process_workout_steps (titlesPair : List ((Nat × Option Nat) × String))
    (titlesCat : List (Nat × String)) : List RawStep → List RawStep
  | [] => []
  | [s] =>
    if s.is_repeat then []
    else [finalizeStep titlesPair titlesCat s none]
  | [s, r] =>
    if s.is_repeat then process_workout_steps titlesPair titlesCat [r]
    else finalizeStep titlesPair titlesCat s none ::
      process_workout_steps titlesPair titlesCat [r]
  | s :: r :: m :: rest =>
    if s.is_repeat then process_workout_steps titlesPair titlesCat (r :: m :: rest)
    else if r.is_rest && m.is_repeat then
      finalizeStep titlesPair titlesCat s (some ((m.repeat_count.getD 0) + 1)) ::
        process_workout_steps titlesPair titlesCat rest
    else
      finalizeStep titlesPair titlesCat s none ::
        process_workout_steps titlesPair titlesCat (r :: m :: rest)

/-! ## Concrete fixtures for the claim theorems -/

/-- An exercise dict with no optional keys. -/
def emptyExercise : Exercise :=
  ⟨none, none, none, none, none, none, none, none, none, none, none⟩

/-- A block dict with no optional keys, no supersets and no exercises. -/
def plainBlock : Block :=
  ⟨none, none, none, none, none, none, [], [], false, none, none⟩

/-- The C3 scenario: one block with round count 2 holding one superset of
two exercises (Burpee, Wall Ball) with a configured 20-second timed
superset rest. -/
def supersetWorkout : Workout :=
  ⟨none, none,
   [{ plainBlock with
      structure_str := some "2 rounds",
      supersets := [⟨[⟨{ emptyExercise with name := some "Burpee" }, none⟩,
                      ⟨{ emptyExercise with name := some "Wall Ball" }, none⟩],
                     some 20, some "timed"⟩] }]⟩

/-- A structurally empty workout: no blocks, hence no exercises. -/
def emptyWorkout : Workout := ⟨none, none, []⟩

/-- A workout with the single exercise named "500m Run" and no explicit
distance, duration or reps fields. -/
def run500Workout : Workout :=
  ⟨none, none,
   [{ plainBlock with
      exercises := [⟨{ emptyExercise with name := some "500m Run" }, none⟩] }]⟩

/-- A workout with one standalone exercise with `sets = 3`. -/
def sets3Workout : Workout :=
  ⟨none, none,
   [{ plainBlock with
      exercises := [⟨{ emptyExercise with name := some "Burpee", sets := some 3 },
                     none⟩] }]⟩

/-- An exercise named "Burpee" carrying two warm-up sets of five reps. -/
def warmupSetsExercise : Exercise :=
  { emptyExercise with name := some "Burpee", warmup_sets := some 2, warmup_reps := some 5 }

/-- A workout with one exercise carrying two warm-up sets of five reps. -/
def warmupSetsWorkout : Workout :=
  ⟨none, none, [{ plainBlock with exercises := [⟨warmupSetsExercise, none⟩] }]⟩

/-- Well-formedness of repeat markers inside a chunk placed at `base`. -/
def ChunkGood (base : Nat) (ch : List Step) : Prop :=
  ∀ j t c, ch.get? j = some (Step.repeatStep t c) → t < base + j ∧ 2 ≤ c

/-- Well-formedness of repeat markers of a whole step list. -/
def RepeatGood (l : List Step) : Prop := ChunkGood 0 l

/-- The first compiled step as the spec describes it: the workout-level
warm-up when enabled, else the first block's warm-up when declared, else
the default open warm-up.  (Modelled from the claim's words, to be
compared with the head of the compiled list.) -/
def firstBlockWarmupSpec (w : Workout) : Step :=
  match w.blocks.head? with
  | some b =>
    if b.warmup_enabled then
      createWarmupStep b.warmup_duration_sec b.warmup_activity
    else createWarmupStep none none
  | none => createWarmupStep none none

/-- The spec-described first step of the compiled list. -/
def firstStepSpec (w : Workout) : Step :=
  match (match w.settings with | some s => s.workoutWarmup | none => none) with
  | some ww =>
    if ww.enabled then createWarmupStep ww.durationSec ww.activity
    else firstBlockWarmupSpec w
  | none => firstBlockWarmupSpec w

/-- A constant lookup returning raw category id 40 (an out-of-range id
that must be remapped by validation). -/
def constCardioLookup : String → MatchResult :=
  fun _ => ⟨40, "X", "X", none, none, none, "keyword"⟩

/-- The warm-up-set step emitted for the C5 counterexample. -/
def warmupSetStepC5 : Step :=
  Step.exercise "Burpee (Warm-Up)" "Burpee" 29 "Total Body" "warmup" "reps" 5
    (some (RepsVal.int 5)) 2 none none true

/-! ## Helper lemmas about `validate_category_id` -/

/-- Ids at most 32 pass through unchanged. -/
theorem validate_unchanged_of_le {id : Int} (h : id ≤ 32) :
    validate_category_id id = id := by
  simp [validate_category_id, MAX_VALID_CATEGORY_ID, h]

/-- Ids 33-38 collapse to the generic cardio bucket 2. -/
theorem validate_remap_lo {id : Int} (h1 : 33 ≤ id) (h2 : id ≤ 38) :
    validate_category_id id = 2 := by
  interval_cases id <;> decide

/-- Ids 39-43 collapse to the generic total-body bucket 29. -/
theorem validate_remap_hi {id : Int} (h1 : 39 ≤ id) (h2 : id ≤ 43) :
    validate_category_id id = 29 := by
  interval_cases id <;> decide

/-- Ids at least 44 are not in the remap table and collapse to 29. -/
theorem validate_eq_of_ge44 {id : Int} (h : 44 ≤ id) :
    validate_category_id id = 29 := by
  unfold validate_category_id
  rw [if_neg (by simp [MAX_VALID_CATEGORY_ID]; omega)]
  have hnone : INVALID_CATEGORY_FALLBACK.find? (fun p => p.1 == id) = none := by
    rw [List.find?_eq_none]
    intro x hx
    simp only [INVALID_CATEGORY_FALLBACK] at hx
    fin_cases hx <;> (simp; omega)
  rw [hnone]

/-- Every id at least 33 lands in the valid range after remapping. -/
theorem validate_range_of_ge33 {id : Int} (h : 33 ≤ id) :
    0 ≤ validate_category_id id ∧ validate_category_id id ≤ 32 := by
  by_cases h38 : id ≤ 38
  · rw [validate_remap_lo h h38]; exact ⟨by omega, by omega⟩
  · by_cases h43 : id ≤ 43
    · rw [validate_remap_hi (by omega) h43]; exact ⟨by omega, by omega⟩
    · rw [validate_eq_of_ge44 (by omega)]; exact ⟨by omega, by omega⟩

/-- Nonnegative ids always land in the valid range after validation. -/
theorem validate_range_of_nonneg {id : Int} (h : 0 ≤ id) :
    0 ≤ validate_category_id id ∧ validate_category_id id ≤ 32 := by
  by_cases h32 : id ≤ 32
  · rw [validate_unchanged_of_le h32]; exact ⟨h, h32⟩
  · exact validate_range_of_ge33 (by omega)

/-! ## Claim theorems -/

/-- Claim C2: for every category id at least 33, `validate_category_id`
returns a value in [0, 32]; ids 33-38 collapse to the generic cardio
bucket 2, ids 39-43 to the generic total-body bucket 29, any other id at
least 33 (such as 99) to 29; and ids at most 32 are returned unchanged. -/
theorem fit_c2_validate_remap (id : Int) :
    (33 ≤ id → 0 ≤ validate_category_id id ∧ validate_category_id id ≤ 32) ∧
    (33 ≤ id → id ≤ 38 → validate_category_id id = 2) ∧
    (39 ≤ id → id ≤ 43 → validate_category_id id = 29) ∧
    (44 ≤ id → validate_category_id id = 29) ∧
    (id ≤ 32 → validate_category_id id = id) :=
  ⟨fun h => validate_range_of_ge33 h,
   fun h1 h2 => validate_remap_lo h1 h2,
   fun h1 h2 => validate_remap_hi h1 h2,
   fun h => validate_eq_of_ge44 h,
   fun h => validate_unchanged_of_le h⟩

/-- Witness for C2 at the concrete ids 38, 43, 99 and 7. -/
theorem fit_c2_validate_remap_witness :
    validate_category_id 38 = 2 ∧ validate_category_id 43 = 29 ∧
    validate_category_id 99 = 29 ∧ validate_category_id 7 = 7 :=
  ⟨(fit_c2_validate_remap 38).2.1 (by decide) (by decide),
   (fit_c2_validate_remap 43).2.2.1 (by decide) (by decide),
   (fit_c2_validate_remap 99).2.2.2.1 (by decide),
   (fit_c2_validate_remap 7).2.2.2.2 (by decide)⟩

/-- Counterexample to C3 as stated: the compiled output of the C3 scenario
has five steps, not four — a default warm-up step is always emitted ahead
of the superset span. -/
theorem fit_c3_counterexample :
    (blocks_to_steps builtinLookup supersetWorkout false).1.length = 5 ∧
    (blocks_to_steps builtinLookup supersetWorkout false).1.length ≠ 4 := by
  constructor <;> decide

/-- Claim C3 (amended): the C3 scenario compiles to exactly five steps — a
default open warm-up, exercise A, exercise B, the 20-second rest, and a
RepeatMarker whose target is the index of A (1) and whose count is 2; the
superset span is not literally duplicated. -/
theorem fit_c3_superset_compilation :
    (blocks_to_steps builtinLookup supersetWorkout false).1 =
      [Step.warmup "Warm-Up" 5 0 2 "Cardio",
       Step.exercise "Burpee" "Burpee" 29 "Total Body" "active" "lap_button" 0
         none 2 none none false,
       Step.exercise "Wall Ball" "Wall Ball" 28 "Squat" "active" "lap_button" 0
         none 2 none none false,
       Step.rest "time" 20000 20,
       Step.repeatStep 1 2] := by
  rfl

/-- Claim C7: the code's own guard (`if not steps: raise`) can never fire —
compiling the structurally empty workout still yields a nonempty list
(the default warm-up step), so `build_fit_workout` does not reject it and
produces a warmup-only artifact. -/
theorem fit_c7_empty_workout_not_rejected :
    (blocks_to_steps builtinLookup emptyWorkout false).1 =
      [Step.warmup "Warm-Up" 5 0 2 "Cardio"] ∧
    build_fit_workout_rejects builtinLookup emptyWorkout false = false := by
  constructor <;> decide

/-- Counterexample to C8 as stated: the "500m Run" exercise step has
duration kind open/lap-button, not distance — the builder parses distance
only from the explicit distance field or a textual reps field, never from
the name. -/
theorem fit_c8_counterexample :
    stepDurationType ((blocks_to_steps builtinLookup run500Workout false).1.getD 1
      (Step.repeatStep 0 0)) = "lap_button" ∧
    stepDurationType ((blocks_to_steps builtinLookup run500Workout false).1.getD 1
      (Step.repeatStep 0 0)) ≠ "distance" := by
  constructor <;> decide

/-- Claim C8 (amended): compiling "500m Run" (no explicit fields) yields a
default warm-up followed by one exercise step with duration kind
open/lap-button and value 0, whose category resolves through the built-in
"run" keyword to the generic cardio bucket 2 (not the running bucket 32). -/
theorem fit_c8_run500_compilation :
    (blocks_to_steps builtinLookup run500Workout false).1 =
      [Step.warmup "Warm-Up" 5 0 2 "Cardio",
       Step.exercise "Run" "500m Run" 2 "Cardio" "active" "lap_button" 0
         none 1 none none false] ∧
    (builtinLookup "500m Run").category_id = 2 ∧
    (builtinLookup "500m Run").match_type = "builtin_keyword" := by
  refine ⟨by decide, by decide, by decide⟩

/-! ## C9 — input mutation -/

/-- Mapping `g` over an index-parameterised rewrite that `g` cannot see is
the same as mapping `g` over the original list. -/
theorem map_mapWithIdxFrom {α β : Type} (f : Nat → α → α) (g : α → β)
    (hf : ∀ j e, g (f j e) = g e) :
    ∀ (i : Nat) (l : List α), (mapWithIdxFrom f i l).map g = l.map g := by
  intro i l
  induction l generalizing i with
  | nil => rfl
  | cons a rest ih => simp [mapWithIdxFrom, hf, ih]

/-- Block annotation only writes bookkeeping keys. -/
theorem eraseBkBlock_annotateBlock (drt : String) (drs : Option Nat) (b : Block) :
    eraseBkBlock (annotateBlock drt drs b) = eraseBkBlock b := by
  unfold annotateBlock eraseBkBlock
  simp only [Block.mk.injEq, true_and, and_true]
  constructor
  · refine map_mapWithIdxFrom _ _ (fun j ss => ?_) 0 b.supersets
    simp only [annotateSuperset, Superset.mk.injEq, and_true]
    apply map_mapWithIdxFrom
    intro jj e
    rfl
  · apply map_mapWithIdxFrom
    intro jj e
    rfl

/-- Counterexample to C9 as stated: after compilation the input tree is
not identical to what the caller supplied — bookkeeping keys have been
added to the exercise dicts in place. -/
theorem fit_c9_counterexample :
    blocks_to_steps_mutations run500Workout ≠ run500Workout := by
  decide

/-- Claim C9 (amended): the only mutation `blocks_to_steps` performs on
its input is stashing the transient underscore-prefixed bookkeeping
fields on exercise records; erasing those fields recovers the original
workout tree exactly (all declared fields, list lengths and order are
unchanged). -/
theorem fit_c9_mutation_only_bookkeeping (w : Workout) :
    eraseBkWorkout (blocks_to_steps_mutations w) = eraseBkWorkout w := by
  unfold blocks_to_steps_mutations eraseBkWorkout
  simp only [List.map_map]
  congr 1
  apply List.map_congr_left
  intro b _
  exact eraseBkBlock_annotateBlock _ _ b

/-! ## C6 — the decompiler -/

/-- `finalizeStep` never changes the repeat flag. -/
theorem finalizeStep_is_repeat (tp : List ((Nat × Option Nat) × String))
    (tc : List (Nat × String)) (s : RawStep) (o : Option Nat) :
    (finalizeStep tp tc s o).is_repeat = s.is_repeat := rfl

/-- `finalizeStep` with a collapsed count writes exactly that count. -/
theorem finalizeStep_sets_collapsed (tp : List ((Nat × Option Nat) × String))
    (tc : List (Nat × String)) (s : RawStep) (k : Nat) :
    (finalizeStep tp tc s (some k)).sets = some k := rfl

/-- Every step emitted by the decompiler pass is the finalisation of a
non-repeat input record; in particular no repeat-marker record ever
appears in the output. -/
theorem process_workout_steps_origin (tp : List ((Nat × Option Nat) × String))
    (tc : List (Nat × String)) :
    ∀ (l : List RawStep) (s : RawStep), s ∈ process_workout_steps tp tc l →
      ∃ x, x ∈ l ∧ x.is_repeat = false ∧
        ∃ o, s = finalizeStep tp tc x o := by
  intro l
  induction l using process_workout_steps.induct tp tc with
  | case1 =>
    intro s hs
    rw [process_workout_steps.eq_1] at hs
    exact absurd hs (List.not_mem_nil s)
  | case2 a ha =>
    intro s hs
    rw [process_workout_steps.eq_2, if_pos ha] at hs
    exact absurd hs (List.not_mem_nil s)
  | case3 a ha =>
    intro s hs
    rw [process_workout_steps.eq_2, if_neg ha] at hs
    exact ⟨a, List.mem_singleton_self a, by simpa using ha, none,
      List.mem_singleton.mp hs⟩
  | case4 a b ha ih =>
    intro s hs
    rw [process_workout_steps.eq_3, if_pos ha] at hs
    obtain ⟨x, hx, hxr, o, ho⟩ := ih s hs
    exact ⟨x, List.mem_cons_of_mem a hx, hxr, o, ho⟩
  | case5 a b ha ih =>
    intro s hs
    rw [process_workout_steps.eq_3, if_neg ha] at hs
    rcases List.mem_cons.mp hs with h | h
    · exact ⟨a, List.mem_cons_self a [b], by simpa using ha, none, h⟩
    · obtain ⟨x, hx, hxr, o, ho⟩ := ih s h
      exact ⟨x, List.mem_cons_of_mem a hx, hxr, o, ho⟩
  | case6 a b c rest ha ih =>
    intro s hs
    rw [process_workout_steps.eq_4, if_pos ha] at hs
    obtain ⟨x, hx, hxr, o, ho⟩ := ih s hs
    exact ⟨x, List.mem_cons_of_mem a hx, hxr, o, ho⟩
  | case7 a b c rest ha hbc ih =>
    intro s hs
    rw [process_workout_steps.eq_4, if_neg ha, if_pos hbc] at hs
    rcases List.mem_cons.mp hs with h | h
    · exact ⟨a, List.mem_cons_self a _, by simpa using ha, _, h⟩
    · obtain ⟨x, hx, hxr, o, ho⟩ := ih s h
      exact ⟨x, List.mem_cons_of_mem a (List.mem_cons_of_mem b
        (List.mem_cons_of_mem c hx)), hxr, o, ho⟩
  | case8 a b c rest ha hbc ih =>
    intro s hs
    rw [process_workout_steps.eq_4, if_neg ha, if_neg hbc] at hs
    rcases List.mem_cons.mp hs with h | h
    · exact ⟨a, List.mem_cons_self a _, by simpa using ha, none, h⟩
    · obtain ⟨x, hx, hxr, o, ho⟩ := ih s h
      exact ⟨x, List.mem_cons_of_mem a hx, hxr, o, ho⟩

/-- Claim C6: an exercise record immediately followed by a rest record and
a repeat-marker record with count `n` collapses into a single display step
with `sets = n + 1`; no repeat-marker record ever appears in the output,
and every output step is the display finalisation of a non-repeat input
record. -/
theorem fit_c6_decompiler_collapse (tp : List ((Nat × Option Nat) × String))
    (tc : List (Nat × String)) (e r m : RawStep) (n : Nat)
    (he : e.is_repeat = false) (hr : r.is_rest = true)
    (hm : m.is_repeat = true) (hn : m.repeat_count = some n) :
    process_workout_steps tp tc [e, r, m] =
        [finalizeStep tp tc e (some (n + 1))] ∧
    (finalizeStep tp tc e (some (n + 1))).sets = some (n + 1) ∧
    (∀ (l : List RawStep) (s : RawStep), s ∈ process_workout_steps tp tc l →
      s.is_repeat = false) ∧
    (∀ (l : List RawStep) (s : RawStep), s ∈ process_workout_steps tp tc l →
      ∃ x, x ∈ l ∧ x.is_repeat = false ∧ ∃ o, s = finalizeStep tp tc x o) := by
  refine ⟨?_, rfl, ?_, process_workout_steps_origin tp tc⟩
  · simp [process_workout_steps, he, hr, hm, hn]
  · intro l s hs
    obtain ⟨x, _, hxr, o, ho⟩ := process_workout_steps_origin tp tc l s hs
    rw [ho, finalizeStep_is_repeat]
    exact hxr

/-- Witness for C6: the spec's own scenario,
`[exercise E, rest R, repeat(count=2)]`, collapses to one step with
`sets = 3`. -/
theorem fit_c6_decompiler_collapse_witness :
    process_workout_steps [] []
        [RawStep.mk (some "E") (some 28) none none none none none
           (some "active") false false none none none none,
         RawStep.mk none none none none none none none
           (some "rest") true false none none none none,
         RawStep.mk none none none none none none none
           none false true (some 2) none none none] =
      [RawStep.mk (some "E") (some 28) none none none none none
         (some "active") false false none (some 3) (some "active") none] ∧
    (RawStep.mk (some "E") (some 28) none none none none none
       (some "active") false false none (some 3) (some "active") none).sets =
      some 3 := by
  have h := fit_c6_decompiler_collapse [] []
    (RawStep.mk (some "E") (some 28) none none none none none
      (some "active") false false none none none none)
    (RawStep.mk none none none none none none none
      (some "rest") true false none none none none)
    (RawStep.mk none none none none none none none
      none false true (some 2) none none none)
    2 rfl rfl rfl rfl
  refine ⟨?_, by decide⟩
  rw [h.1]
  decide

/-! ## Membership machinery for the compiled step list

Every step appended by `blocks_to_steps` is one of: a rest step built by
`create_rest_step`, a repeat marker, a warm-up step built by
`createWarmupStep`, a warm-up-set exercise step, or a working-set exercise
step.  `blocks_to_steps_mem` packages this as an induction principle over
the compiled list. -/

/-- Every element of a sets-rest chunk is a rest step. -/
theorem setsRestChunk_mem (ert : String) (ers : Option Nat) (rbs : Nat)
    (brt : String) :
    ∀ s ∈ setsRestChunk ert ers rbs brt, ∃ a b, s = create_rest_step a b := by
  intro s hs
  unfold setsRestChunk at hs
  split at hs
  · exact ⟨0, "button", List.mem_singleton.mp hs⟩
  · split at hs
    · exact ⟨_, _, List.mem_singleton.mp hs⟩
    · split at hs
      · exact ⟨_, _, List.mem_singleton.mp hs⟩
      · exact absurd hs (List.not_mem_nil s)

/-- Every element of a between-sets rest chunk is a rest step. -/
theorem betweenRestChunk_mem (ert : String) (ers : Option Nat) (rbs : Nat)
    (brt : String) :
    ∀ s ∈ betweenRestChunk ert ers rbs brt, ∃ a b, s = create_rest_step a b := by
  intro s hs
  unfold betweenRestChunk at hs
  split at hs
  · exact ⟨_, _, List.mem_singleton.mp hs⟩
  · split at hs
    · exact ⟨_, _, List.mem_singleton.mp hs⟩
    · exact absurd hs (List.not_mem_nil s)

/-- Membership principle for a warm-up-sets chunk. -/
theorem warmupChunk_mem (P : Step → Prop) (base : Nat) (dn nm : String)
    (cid : Int) (cn : String) (eni : Option Nat) (ws wr : Nat) (ert : String)
    (ers : Option Nat) (rbs : Nat) (brt : String)
    (hx : P (Step.exercise (dn ++ " (Warm-Up)") nm cid cn "warmup" "reps"
      (wr : Int) (some (RepsVal.int (wr : Int))) ws eni none true))
    (hrest : ∀ a b, P (create_rest_step a b))
    (hrep : ∀ t c, P (Step.repeatStep t c)) :
    ∀ s ∈ warmupChunk base dn nm cid cn eni ws wr ert ers rbs brt, P s := by
  intro s hs
  unfold warmupChunk at hs
  rcases List.mem_append.mp hs with h1 | h23
  · rw [List.mem_singleton.mp h1]; exact hx
  · rcases List.mem_append.mp h23 with h2 | h34
    · split at h2
      · obtain ⟨a, b, rfl⟩ := setsRestChunk_mem _ _ _ _ s h2
        exact hrest a b
      · exact absurd h2 (List.not_mem_nil s)
    · rcases List.mem_append.mp h34 with h3 | h4
      · split at h3
        · rw [List.mem_singleton.mp h3]; exact hrep base ws
        · exact absurd h3 (List.not_mem_nil s)
      · obtain ⟨a, b, rfl⟩ := betweenRestChunk_mem _ _ _ _ s h4
        exact hrest a b

/-- Membership principle for the optional warm-up-sets chunk. -/
theorem wchunkOf_mem (P : Step → Prop) (base : Nat) (dn nm : String)
    (cid : Int) (cn : String) (eni : Option Nat) (wsets wreps : Option Nat)
    (ert : String) (ers : Option Nat) (rbs : Nat) (brt : String)
    (hx : ∀ (ws wr : Nat), P (Step.exercise (dn ++ " (Warm-Up)") nm cid cn
      "warmup" "reps" (wr : Int) (some (RepsVal.int (wr : Int))) ws eni none true))
    (hrest : ∀ a b, P (create_rest_step a b))
    (hrep : ∀ t c, P (Step.repeatStep t c)) :
    ∀ s ∈ wchunkOf base dn nm cid cn eni wsets wreps ert ers rbs brt, P s := by
  intro s hs
  unfold wchunkOf at hs
  split at hs
  · split at hs
    · exact warmupChunk_mem P base dn nm cid cn eni _ _ ert ers rbs brt
        (hx _ _) hrest hrep s hs
    · exact absurd hs (List.not_mem_nil s)
  · exact absurd hs (List.not_mem_nil s)

/-- Membership principle for the rest/repeat tail chunk. -/
theorem tchunkOf_mem (P : Step → Prop) (bk : Bookkeeping) (ilb : Bool)
    (rbs : Nat) (brt : String) (ssi : Option Nat)
    (superset_rounds sets start_index : Nat) (ert : String) (ers : Option Nat)
    (pos total : Nat)
    (hrest : ∀ a b, P (create_rest_step a b))
    (hrep : ∀ t c, P (Step.repeatStep t c)) :
    ∀ s ∈ tchunkOf bk ilb rbs brt ssi superset_rounds sets start_index
        ert ers pos total, P s := by
  intro s hs
  unfold tchunkOf at hs
  split at hs
  · split at hs
    · rcases List.mem_append.mp hs with h1 | h2
      · split at h1
        · rw [List.mem_singleton.mp h1]; exact hrest _ _
        · exact absurd h1 (List.not_mem_nil s)
      · split at h2
        · split at h2
          · rw [List.mem_singleton.mp h2]; exact hrep _ _
          · exact absurd h2 (List.not_mem_nil s)
        · exact absurd h2 (List.not_mem_nil s)
    · exact absurd hs (List.not_mem_nil s)
  · rcases List.mem_append.mp hs with h1 | h23
    · split at h1
      · obtain ⟨a, b, rfl⟩ := setsRestChunk_mem _ _ _ _ s h1
        exact hrest a b
      · exact absurd h1 (List.not_mem_nil s)
    · rcases List.mem_append.mp h23 with h2 | h3
      · split at h2
        · rw [List.mem_singleton.mp h2]; exact hrep _ _
        · exact absurd h2 (List.not_mem_nil s)
      · split at h3
        · rw [List.mem_singleton.mp h3]; exact hrest _ _
        · exact absurd h3 (List.not_mem_nil s)

/-- Membership principle for one exercise-compilation iteration. -/
theorem compileExercise_mem (lookup : String → MatchResult)
    (use_lap_button : Bool) (ctx : BlockCtx) (total : Nat) (P : Step → Prop)
    (hrest : ∀ a b, P (create_rest_step a b))
    (hrep : ∀ t c, P (Step.repeatStep t c))
    (hwe : ∀ (dn nm cn : String) (eni : Option Nat) (ws wr : Nat),
      P (Step.exercise (dn ++ " (Warm-Up)") nm
        (validate_category_id (lookup nm).category_id) cn "warmup" "reps"
        (wr : Int) (some (RepsVal.int (wr : Int))) ws eni none true))
    (hwo : ∀ (dn nm cn : String) (rr : Option RepsVal) (sets : Nat)
        (eni : Option Nat) (nt : Option String) (dm ds : Option Nat)
        (rrg : Option String),
      P (Step.exercise dn nm (validate_category_id (lookup nm).category_id) cn
        "active" (exerciseDuration use_lap_button dm rr ds rrg).1
        (exerciseDuration use_lap_button dm rr ds rrg).2 rr sets eni nt false))
    (st : CompState) (pe : Nat × ExRecord)
    (hst : ∀ s ∈ st.steps, P s) :
    ∀ s ∈ (compileExercise lookup use_lap_button ctx total st pe).steps, P s := by
  intro s hs
  simp only [compileExercise] at hs
  rcases List.mem_append.mp hs with h0 | h123
  · exact hst s h0
  · rcases List.mem_append.mp h123 with h1 | h23
    · exact wchunkOf_mem P _ _ _ _ _ _ _ _ _ _ _ _
        (fun ws wr => hwe _ _ _ _ ws wr) hrest hrep s h1
    · rcases List.mem_append.mp h23 with h2 | h3
      · rw [List.mem_singleton.mp h2]
        exact hwo _ _ _ _ _ _ _ _ _ _
      · exact tchunkOf_mem P _ _ _ _ _ _ _ _ _ _ _ _ hrest hrep s h3

/-- Membership principle lifted through the per-exercise fold. -/
theorem foldExercises_mem (lookup : String → MatchResult)
    (use_lap_button : Bool) (ctx : BlockCtx) (total : Nat) (P : Step → Prop)
    (hrest : ∀ a b, P (create_rest_step a b))
    (hrep : ∀ t c, P (Step.repeatStep t c))
    (hwe : ∀ (dn nm cn : String) (eni : Option Nat) (ws wr : Nat),
      P (Step.exercise (dn ++ " (Warm-Up)") nm
        (validate_category_id (lookup nm).category_id) cn "warmup" "reps"
        (wr : Int) (some (RepsVal.int (wr : Int))) ws eni none true))
    (hwo : ∀ (dn nm cn : String) (rr : Option RepsVal) (sets : Nat)
        (eni : Option Nat) (nt : Option String) (dm ds : Option Nat)
        (rrg : Option String),
      P (Step.exercise dn nm (validate_category_id (lookup nm).category_id) cn
        "active" (exerciseDuration use_lap_button dm rr ds rrg).1
        (exerciseDuration use_lap_button dm rr ds rrg).2 rr sets eni nt false)) :
    ∀ (pl : List (Nat × ExRecord)) (st : CompState),
      (∀ s ∈ st.steps, P s) →
      ∀ s ∈ (pl.foldl (compileExercise lookup use_lap_button ctx total) st).steps,
        P s := by
  intro pl
  induction pl with
  | nil => intro st hst s hs; exact hst s hs
  | cons pe rest ih =>
    intro st hst s hs
    rw [List.foldl_cons] at hs
    exact ih _ (compileExercise_mem lookup use_lap_button ctx total P
      hrest hrep hwe hwo st pe hst) s hs

/-- Membership through a single push. -/
theorem pushStep_mem (st : CompState) (x : Step) :
    ∀ s ∈ (pushStep st x).steps, s ∈ st.steps ∨ s = x := by
  intro s hs
  rcases List.mem_append.mp hs with h | h
  · exact Or.inl h
  · exact Or.inr (List.mem_singleton.mp h)

/-- Membership principle for one block-compilation iteration. -/
theorem compileBlock_mem (lookup : String → MatchResult)
    (use_lap_button : Bool) (drt : String) (drs : Option Nat)
    (num_blocks : Nat) (P : Step → Prop)
    (hrest : ∀ a b, P (create_rest_step a b))
    (hrep : ∀ t c, P (Step.repeatStep t c))
    (hwarm : ∀ d a, P (createWarmupStep d a))
    (hwe : ∀ (dn nm cn : String) (eni : Option Nat) (ws wr : Nat),
      P (Step.exercise (dn ++ " (Warm-Up)") nm
        (validate_category_id (lookup nm).category_id) cn "warmup" "reps"
        (wr : Int) (some (RepsVal.int (wr : Int))) ws eni none true))
    (hwo : ∀ (dn nm cn : String) (rr : Option RepsVal) (sets : Nat)
        (eni : Option Nat) (nt : Option String) (dm ds : Option Nat)
        (rrg : Option String),
      P (Step.exercise dn nm (validate_category_id (lookup nm).category_id) cn
        "active" (exerciseDuration use_lap_button dm rr ds rrg).1
        (exerciseDuration use_lap_button dm rr ds rrg).2 rr sets eni nt false))
    (st : CompState) (pb : Nat × Block)
    (hst : ∀ s ∈ st.steps, P s) :
    ∀ s ∈ (compileBlock lookup use_lap_button drt drs num_blocks st pb).steps,
      P s := by
  intro s hs
  simp only [compileBlock] at hs
  have hst0 : ∀ s' ∈ (if pb.2.warmup_enabled then
      pushStep st (createWarmupStep pb.2.warmup_duration_sec pb.2.warmup_activity)
      else st).steps, P s' := by
    intro s' hs'
    split at hs'
    · rcases pushStep_mem _ _ s' hs' with h | h
      · exact hst s' h
      · rw [h]; exact hwarm _ _
    · exact hst s' hs'
  split at hs
  · split at hs
    · rcases pushStep_mem _ _ s hs with h | h
      · refine foldExercises_mem lookup use_lap_button _ _ P hrest hrep hwe hwo
          _ _ ?_ s h
        intro s' hs'
        exact hst0 s' hs'
      · rw [h]; exact hrest _ _
    · refine foldExercises_mem lookup use_lap_button _ _ P hrest hrep hwe hwo
        _ _ ?_ s hs
      intro s' hs'
      exact hst0 s' hs'
  · refine foldExercises_mem lookup use_lap_button _ _ P hrest hrep hwe hwo
      _ _ ?_ s hs
    intro s' hs'
    exact hst0 s' hs'

/-- Membership principle lifted through the per-block fold. -/
theorem foldBlocks_mem (lookup : String → MatchResult) (use_lap_button : Bool)
    (drt : String) (drs : Option Nat) (num_blocks : Nat) (P : Step → Prop)
    (hrest : ∀ a b, P (create_rest_step a b))
    (hrep : ∀ t c, P (Step.repeatStep t c))
    (hwarm : ∀ d a, P (createWarmupStep d a))
    (hwe : ∀ (dn nm cn : String) (eni : Option Nat) (ws wr : Nat),
      P (Step.exercise (dn ++ " (Warm-Up)") nm
        (validate_category_id (lookup nm).category_id) cn "warmup" "reps"
        (wr : Int) (some (RepsVal.int (wr : Int))) ws eni none true))
    (hwo : ∀ (dn nm cn : String) (rr : Option RepsVal) (sets : Nat)
        (eni : Option Nat) (nt : Option String) (dm ds : Option Nat)
        (rrg : Option String),
      P (Step.exercise dn nm (validate_category_id (lookup nm).category_id) cn
        "active" (exerciseDuration use_lap_button dm rr ds rrg).1
        (exerciseDuration use_lap_button dm rr ds rrg).2 rr sets eni nt false)) :
    ∀ (pl : List (Nat × Block)) (st : CompState),
      (∀ s ∈ st.steps, P s) →
      ∀ s ∈ (pl.foldl
        (compileBlock lookup use_lap_button drt drs num_blocks) st).steps, P s := by
  intro pl
  induction pl with
  | nil => intro st hst s hs; exact hst s hs
  | cons pb rest ih =>
    intro st hst s hs
    rw [List.foldl_cons] at hs
    exact ih _ (compileBlock_mem lookup use_lap_button drt drs num_blocks P
      hrest hrep hwarm hwe hwo st pb hst) s hs

/-- Master membership principle for `blocks_to_steps`: every compiled step
is a rest step, a repeat marker, a warm-up step, a warm-up-set exercise
step, or a working-set exercise step, each with the exact field shape the
source writes. -/
theorem blocks_to_steps_mem (lookup : String → MatchResult)
    (use_lap_button : Bool) (P : Step → Prop)
    (hrest : ∀ a b, P (create_rest_step a b))
    (hrep : ∀ t c, P (Step.repeatStep t c))
    (hwarm : ∀ d a, P (createWarmupStep d a))
    (hwe : ∀ (dn nm cn : String) (eni : Option Nat) (ws wr : Nat),
      P (Step.exercise (dn ++ " (Warm-Up)") nm
        (validate_category_id (lookup nm).category_id) cn "warmup" "reps"
        (wr : Int) (some (RepsVal.int (wr : Int))) ws eni none true))
    (hwo : ∀ (dn nm cn : String) (rr : Option RepsVal) (sets : Nat)
        (eni : Option Nat) (nt : Option String) (dm ds : Option Nat)
        (rrg : Option String),
      P (Step.exercise dn nm (validate_category_id (lookup nm).category_id) cn
        "active" (exerciseDuration use_lap_button dm rr ds rrg).1
        (exerciseDuration use_lap_button dm rr ds rrg).2 rr sets eni nt false))
    (w : Workout) :
    ∀ s ∈ (blocks_to_steps lookup w use_lap_button).1, P s := by
  intro s hs
  simp only [blocks_to_steps] at hs
  refine foldBlocks_mem lookup use_lap_button _ _ _ P hrest hrep hwarm hwe hwo
    _ _ ?_ s hs
  intro s' hs'
  split at hs'
  · split at hs'
    · rcases pushStep_mem _ _ s' hs' with h | h
      · exact absurd h (List.not_mem_nil s')
      · rw [h]; exact hwarm _ _
    · split at hs'
      · split at hs'
        · exact absurd hs' (List.not_mem_nil s')
        · rcases pushStep_mem _ _ s' hs' with h | h
          · exact absurd h (List.not_mem_nil s')
          · rw [h]; exact hwarm _ _
      · rcases pushStep_mem _ _ s' hs' with h | h
        · exact absurd h (List.not_mem_nil s')
        · rw [h]; exact hwarm _ _
  · split at hs'
    · split at hs'
      · exact absurd hs' (List.not_mem_nil s')
      · rcases pushStep_mem _ _ s' hs' with h | h
        · exact absurd h (List.not_mem_nil s')
        · rw [h]; exact hwarm _ _
    · rcases pushStep_mem _ _ s' hs' with h | h
      · exact absurd h (List.not_mem_nil s')
      · rw [h]; exact hwarm _ _

/-! ## Back-reference well-formedness (C4)

`ChunkGood base ch` says: every repeat marker inside the chunk `ch`,
placed at absolute position `base + j`, targets a strictly earlier
absolute index and carries a count of at least 2. -/

/-- The empty chunk is good. -/
theorem chunkGood_nil (base : Nat) : ChunkGood base [] := by
  intro j t c hj
  simp at hj

/-- Goodness composes along appends. -/
theorem chunkGood_append {base : Nat} {l1 l2 : List Step}
    (h1 : ChunkGood base l1) (h2 : ChunkGood (base + l1.length) l2) :
    ChunkGood base (l1 ++ l2) := by
  intro j t c hj
  by_cases hlt : j < l1.length
  · rw [List.get?_append hlt] at hj
    exact h1 j t c hj
  · rw [List.get?_append_right (Nat.le_of_not_lt hlt)] at hj
    obtain ⟨ht, hc⟩ := h2 (j - l1.length) t c hj
    exact ⟨by omega, hc⟩

/-- A chunk with no repeat markers is good. -/
theorem chunkGood_of_no_repeats {base : Nat} {ch : List Step}
    (h : ∀ s ∈ ch, isRepeatStep s = false) : ChunkGood base ch := by
  intro j t c hj
  have hm : Step.repeatStep t c ∈ ch := List.get?_mem hj
  have := h _ hm
  simp [isRepeatStep] at this

/-- A single non-repeat step is a good chunk. -/
theorem chunkGood_singleton {base : Nat} {s : Step}
    (h : isRepeatStep s = false) : ChunkGood base [s] :=
  chunkGood_of_no_repeats (by intro x hx; rw [List.mem_singleton.mp hx]; exact h)

/-- A single repeat marker with an earlier target and a count of at least
two is a good chunk. -/
theorem chunkGood_singleton_repeat {base t c : Nat} (ht : t < base)
    (hc : 2 ≤ c) : ChunkGood base [Step.repeatStep t c] := by
  intro j t' c' hj
  match j with
  | 0 =>
    simp at hj
    obtain ⟨h1, h2⟩ := hj
    constructor
    · omega
    · omega
  | jj + 1 => simp at hj

/-- Prepending a non-repeat step preserves goodness (with the base shifted). -/
theorem chunkGood_cons {base : Nat} {s : Step} {ch : List Step}
    (hs : isRepeatStep s = false) (h : ChunkGood (base + 1) ch) :
    ChunkGood base (s :: ch) := by
  intro j t c hj
  match j with
  | 0 =>
    simp at hj
    rw [hj] at hs
    simp [isRepeatStep] at hs
  | jj + 1 =>
    rw [List.get?_cons_succ] at hj
    obtain ⟨ht, hc⟩ := h jj t c hj
    exact ⟨by omega, hc⟩

/-- Appending a good chunk to a good list keeps all markers good. -/
theorem RepeatGood_append {l ch : List Step} (hl : RepeatGood l)
    (hch : ChunkGood l.length ch) : RepeatGood (l ++ ch) := by
  have h0 : ChunkGood 0 l := hl
  have := chunkGood_append h0 (by simpa using hch)
  exact this

/-- Rest steps are not exercise, repeat or warmup steps. -/
theorem create_rest_step_kind (a : Nat) (b : String) :
    isExerciseStep (create_rest_step a b) = false ∧
    isRepeatStep (create_rest_step a b) = false ∧
    isWarmupStep (create_rest_step a b) = false := by
  unfold create_rest_step
  split <;> exact ⟨rfl, rfl, rfl⟩

/-- Warm-up steps are not exercise or repeat steps. -/
theorem createWarmupStep_kind (d : Option Nat) (a : Option String) :
    isExerciseStep (createWarmupStep d a) = false ∧
    isRepeatStep (createWarmupStep d a) = false ∧
    isWarmupStep (createWarmupStep d a) = true := by
  unfold createWarmupStep
  match d with
  | some dd =>
    by_cases h : 0 < dd <;> simp [h, isExerciseStep, isRepeatStep, isWarmupStep]
  | none => exact ⟨rfl, rfl, rfl⟩

/-- Sets-rest chunks contain no repeat markers. -/
theorem setsRestChunk_no_repeats (ert : String) (ers : Option Nat) (rbs : Nat)
    (brt : String) :
    ∀ s ∈ setsRestChunk ert ers rbs brt, isRepeatStep s = false := by
  intro s hs
  obtain ⟨a, b, rfl⟩ := setsRestChunk_mem _ _ _ _ s hs
  exact (create_rest_step_kind a b).2.1

/-- Between-sets rest chunks contain no repeat markers. -/
theorem betweenRestChunk_no_repeats (ert : String) (ers : Option Nat)
    (rbs : Nat) (brt : String) :
    ∀ s ∈ betweenRestChunk ert ers rbs brt, isRepeatStep s = false := by
  intro s hs
  obtain ⟨a, b, rfl⟩ := betweenRestChunk_mem _ _ _ _ s hs
  exact (create_rest_step_kind a b).2.1

/-- The warm-up-sets chunk placed at its own `base` is good: its only
marker targets `base` (the warm-up exercise step at offset 0) from an
offset of at least 1, with `repeat_count = warmup_sets ≥ 2`. -/
theorem warmupChunk_chunkGood (base : Nat) (dn nm : String) (cid : Int)
    (cn : String) (eni : Option Nat) (ws wr : Nat) (ert : String)
    (ers : Option Nat) (rbs : Nat) (brt : String) :
    ChunkGood base (warmupChunk base dn nm cid cn eni ws wr ert ers rbs brt) := by
  unfold warmupChunk
  rw [List.singleton_append]
  refine chunkGood_cons ?_ ?_
  · rfl
  · by_cases hws : 1 < ws
    · simp only [if_pos hws]
      apply chunkGood_append
      · exact chunkGood_of_no_repeats (setsRestChunk_no_repeats _ _ _ _)
      · apply chunkGood_append
        · exact chunkGood_singleton_repeat (by omega) (by omega)
        · exact chunkGood_of_no_repeats (betweenRestChunk_no_repeats _ _ _ _)
    · simp only [if_neg hws]
      apply chunkGood_append
      · exact chunkGood_nil _
      · apply chunkGood_append
        · exact chunkGood_nil _
        · exact chunkGood_of_no_repeats (betweenRestChunk_no_repeats _ _ _ _)

/-- The optional warm-up-sets chunk placed at its own `base` is good. -/
theorem wchunkOf_chunkGood (base : Nat) (dn nm : String) (cid : Int)
    (cn : String) (eni : Option Nat) (wsets wreps : Option Nat) (ert : String)
    (ers : Option Nat) (rbs : Nat) (brt : String) :
    ChunkGood base (wchunkOf base dn nm cid cn eni wsets wreps ert ers rbs brt) := by
  unfold wchunkOf
  split
  · split
    · exact warmupChunk_chunkGood base dn nm cid cn eni _ _ ert ers rbs brt
    · exact chunkGood_nil _
  · exact chunkGood_nil _

/-- The rest/repeat tail chunk is good provided the superset start index
and the working-set start index both lie strictly below the chunk's
placement. -/
theorem tchunkOf_chunkGood (bk : Bookkeeping) (ilb : Bool) (rbs : Nat)
    (brt : String) (ssi : Option Nat)
    (superset_rounds sets start_index : Nat) (ert : String) (ers : Option Nat)
    (pos total : Nat) (base : Nat)
    (hssi : ∀ v, ssi = some v → v < base) (hstart : start_index < base) :
    ChunkGood base (tchunkOf bk ilb rbs brt ssi superset_rounds sets start_index
      ert ers pos total) := by
  unfold tchunkOf
  split
  · split
    · by_cases hro : 1 < superset_rounds
      · simp only [if_pos hro]
        apply chunkGood_append
        · apply chunkGood_of_no_repeats
          intro s hs
          split at hs
          · rw [List.mem_singleton.mp hs]
            exact (create_rest_step_kind _ _).2.1
          · exact absurd hs (List.not_mem_nil s)
        · cases hv : ssi with
          | some v =>
            exact chunkGood_singleton_repeat (by have := hssi v hv; omega)
              (by omega)
          | none => exact chunkGood_nil _
      · simp only [if_neg hro]
        apply chunkGood_append
        · apply chunkGood_of_no_repeats
          intro s hs
          split at hs
          · rw [List.mem_singleton.mp hs]
            exact (create_rest_step_kind _ _).2.1
          · exact absurd hs (List.not_mem_nil s)
        · exact chunkGood_nil _
    · exact chunkGood_nil _
  · by_cases hse : 1 < sets
    · simp only [if_pos hse]
      apply chunkGood_append
      · exact chunkGood_of_no_repeats (setsRestChunk_no_repeats _ _ _ _)
      · apply chunkGood_append
        · exact chunkGood_singleton_repeat (by omega) (by omega)
        · apply chunkGood_of_no_repeats
          intro s hs
          split at hs
          · rw [List.mem_singleton.mp hs]
            exact (create_rest_step_kind _ _).2.1
          · exact absurd hs (List.not_mem_nil s)
    · simp only [if_neg hse]
      apply chunkGood_append
      · exact chunkGood_nil _
      · apply chunkGood_append
        · exact chunkGood_nil _
        · apply chunkGood_of_no_repeats
          intro s hs
          split at hs
          · rw [List.mem_singleton.mp hs]
            exact (create_rest_step_kind _ _).2.1
          · exact absurd hs (List.not_mem_nil s)

/-- One exercise iteration only appends to the step list. -/
theorem compileExercise_steps_append (lookup : String → MatchResult)
    (u : Bool) (ctx : BlockCtx) (total : Nat) (st : CompState)
    (pe : Nat × ExRecord) :
    ∃ l, (compileExercise lookup u ctx total st pe).steps = st.steps ++ l :=
  ⟨_, rfl⟩

/-- The exercise fold only appends to the step list. -/
theorem foldExercises_steps_append (lookup : String → MatchResult) (u : Bool)
    (ctx : BlockCtx) (total : Nat) :
    ∀ (pl : List (Nat × ExRecord)) (st : CompState),
      ∃ l, (pl.foldl (compileExercise lookup u ctx total) st).steps =
        st.steps ++ l := by
  intro pl
  induction pl with
  | nil => exact fun st => ⟨[], (List.append_nil _).symm⟩
  | cons pe rest ih =>
    intro st
    obtain ⟨l1, h1⟩ := compileExercise_steps_append lookup u ctx total st pe
    obtain ⟨l2, h2⟩ := ih (compileExercise lookup u ctx total st pe)
    exact ⟨l1 ++ l2, by rw [List.foldl_cons, h2, h1, List.append_assoc]⟩

/-- One exercise iteration preserves marker well-formedness and the
superset-start-index bound. -/
theorem compileExercise_repeatGood (lookup : String → MatchResult) (u : Bool)
    (ctx : BlockCtx) (total : Nat) (st : CompState) (pe : Nat × ExRecord)
    (hsteps : RepeatGood st.steps)
    (hssi : ∀ v, st.ssi = some v → v ≤ st.steps.length) :
    RepeatGood (compileExercise lookup u ctx total st pe).steps ∧
    (∀ v, (compileExercise lookup u ctx total st pe).ssi = some v →
      v ≤ (compileExercise lookup u ctx total st pe).steps.length) := by
  constructor
  · simp only [compileExercise]
    apply RepeatGood_append hsteps
    apply chunkGood_append
    · exact wchunkOf_chunkGood _ _ _ _ _ _ _ _ _ _ _ _
    · apply chunkGood_append
      · refine chunkGood_singleton ?_
        rfl
      · apply tchunkOf_chunkGood
        · intro v hv
          split at hv
          · have : v = st.steps.length := by
              have := Option.some.inj hv
              omega
            simp only [List.length_singleton]
            omega
          · have := hssi v hv
            simp only [List.length_singleton]
            omega
        · simp only [List.length_singleton]
          omega
  · simp only [compileExercise]
    intro v hv
    split at hv
    · exact absurd hv (by simp)
    · simp only [List.length_append]
      split at hv
      · have : st.steps.length = v := Option.some.inj hv
        omega
      · have := hssi v hv
        omega

/-- The exercise fold preserves marker well-formedness. -/
theorem foldExercises_repeatGood (lookup : String → MatchResult) (u : Bool)
    (ctx : BlockCtx) (total : Nat) :
    ∀ (pl : List (Nat × ExRecord)) (st : CompState),
      RepeatGood st.steps → (∀ v, st.ssi = some v → v ≤ st.steps.length) →
      RepeatGood (pl.foldl (compileExercise lookup u ctx total) st).steps := by
  intro pl
  induction pl with
  | nil => exact fun st h _ => h
  | cons pe rest ih =>
    intro st h1 h2
    rw [List.foldl_cons]
    obtain ⟨hg, hb⟩ := compileExercise_repeatGood lookup u ctx total st pe h1 h2
    exact ih _ hg hb

/-- Auxiliary: a fold preceded by nothing and followed by one push only
appends, with marker well-formedness preserved. -/
theorem aux_push_fold_repeatGood (lookup : String → MatchResult) (u : Bool)
    (ctx : BlockCtx) (total : Nat) (E : List (Nat × ExRecord)) (I : CompState)
    (x : Step) (hx : isRepeatStep x = false) (hI : RepeatGood I.steps)
    (hIs : ∀ v, I.ssi = some v → v ≤ I.steps.length) :
    RepeatGood (pushStep (E.foldl (compileExercise lookup u ctx total) I) x).steps := by
  apply RepeatGood_append (foldExercises_repeatGood lookup u ctx total E I hI hIs)
  exact chunkGood_singleton hx

/-- One block iteration preserves marker well-formedness. -/
theorem compileBlock_repeatGood (lookup : String → MatchResult) (u : Bool)
    (drt : String) (drs : Option Nat) (nb : Nat) (st : CompState)
    (pb : Nat × Block) (hst : RepeatGood st.steps) :
    RepeatGood (compileBlock lookup u drt drs nb st pb).steps := by
  have hst0 : RepeatGood (if pb.2.warmup_enabled then
      pushStep st (createWarmupStep pb.2.warmup_duration_sec pb.2.warmup_activity)
      else st).steps := by
    split
    · exact RepeatGood_append hst (chunkGood_singleton (createWarmupStep_kind _ _).2.1)
    · exact hst
  simp only [compileBlock]
  split
  · split
    · apply aux_push_fold_repeatGood
      · exact (create_rest_step_kind _ _).2.1
      · exact hst0
      · intro v hv
        exact absurd hv (by simp)
    · apply foldExercises_repeatGood
      · exact hst0
      · intro v hv
        exact absurd hv (by simp)
  · apply foldExercises_repeatGood
    · exact hst0
    · intro v hv
      exact absurd hv (by simp)

/-- The block fold preserves marker well-formedness. -/
theorem foldBlocks_repeatGood (lookup : String → MatchResult) (u : Bool)
    (drt : String) (drs : Option Nat) (nb : Nat) :
    ∀ (pl : List (Nat × Block)) (st : CompState), RepeatGood st.steps →
      RepeatGood (pl.foldl (compileBlock lookup u drt drs nb) st).steps := by
  intro pl
  induction pl with
  | nil => exact fun st h => h
  | cons pb rest ih =>
    intro st h
    rw [List.foldl_cons]
    exact ih _ (compileBlock_repeatGood lookup u drt drs nb st pb h)

/-- Every compiled step list has well-formed back-references. -/
theorem blocks_to_steps_repeatGood (lookup : String → MatchResult)
    (w : Workout) (u : Bool) :
    RepeatGood (blocks_to_steps lookup w u).1 := by
  simp only [blocks_to_steps]
  apply foldBlocks_repeatGood
  split
  · split
    · apply RepeatGood_append (chunkGood_nil 0)
      exact chunkGood_singleton (createWarmupStep_kind _ _).2.1
    · split
      · split
        · exact chunkGood_nil 0
        · apply RepeatGood_append (chunkGood_nil 0)
          exact chunkGood_singleton (createWarmupStep_kind _ _).2.1
      · apply RepeatGood_append (chunkGood_nil 0)
        exact chunkGood_singleton (createWarmupStep_kind _ _).2.1
  · split
    · split
      · exact chunkGood_nil 0
      · apply RepeatGood_append (chunkGood_nil 0)
        exact chunkGood_singleton (createWarmupStep_kind _ _).2.1
    · apply RepeatGood_append (chunkGood_nil 0)
      exact chunkGood_singleton (createWarmupStep_kind _ _).2.1

/-! ## C4 — the back-reference claim -/

/-- Claim C4: in every step list produced by `blocks_to_steps`, every
repeat step's `duration_step` (target index) is strictly less than the
repeat step's own position, and every repeat step's `repeat_count` is at
least 2. -/
theorem fit_c4_repeat_backreference (lookup : String → MatchResult)
    (w : Workout) (use_lap_button : Bool) (i t c : Nat)
    (h : (blocks_to_steps lookup w use_lap_button).1.get? i =
      some (Step.repeatStep t c)) :
    t < i ∧ 2 ≤ c := by
  obtain ⟨ht, hc⟩ := blocks_to_steps_repeatGood lookup w use_lap_button i t c h
  exact ⟨by omega, hc⟩

/-- Witness for C4: the workout with a single standalone exercise with
`sets = 3` compiles to `[warmup, exercise, rest, repeat(1, 3)]`, and the
marker at position 3 targets position 1 with count 3. -/
theorem fit_c4_repeat_backreference_witness :
    (blocks_to_steps builtinLookup sets3Workout false).1.get? 3 =
      some (Step.repeatStep 1 3) ∧ (1 < 3 ∧ 2 ≤ 3) :=
  ⟨by decide, fit_c4_repeat_backreference builtinLookup sets3Workout false 3 1 3
    (by decide)⟩

/-! ## C10 — the leading warm-up step -/

/-- The spec-described first step is always a warmup-type step. -/
theorem firstStepSpec_isWarmup (w : Workout) :
    isWarmupStep (firstStepSpec w) = true := by
  unfold firstStepSpec firstBlockWarmupSpec
  split
  · split
    · exact (createWarmupStep_kind _ _).2.2
    · split
      · split
        · exact (createWarmupStep_kind _ _).2.2
        · exact (createWarmupStep_kind _ _).2.2
      · exact (createWarmupStep_kind _ _).2.2
  · split
    · split
      · exact (createWarmupStep_kind _ _).2.2
      · exact (createWarmupStep_kind _ _).2.2
    · exact (createWarmupStep_kind _ _).2.2

/-- Head of an append with a nonempty left part. -/
theorem head_append_ne_nil {l l' : List Step} (h : l ≠ []) :
    (l ++ l').head? = l.head? := by
  cases l with
  | nil => exact absurd rfl h
  | cons a rest => rfl

/-- The step list after a push. -/
theorem pushStep_steps (st : CompState) (x : Step) :
    (pushStep st x).steps = st.steps ++ [x] := rfl

/-- A block iteration's appended chunk starts with the block's warm-up
step when the block declares one. -/
theorem compileBlock_steps_shape (lookup : String → MatchResult) (u : Bool)
    (drt : String) (drs : Option Nat) (nb : Nat) (st : CompState)
    (pb : Nat × Block) :
    ∃ l, (compileBlock lookup u drt drs nb st pb).steps =
      st.steps ++ ((if pb.2.warmup_enabled then
        [createWarmupStep pb.2.warmup_duration_sec pb.2.warmup_activity]
        else []) ++ l) := by
  have hI : ∀ (X : CompState), X.steps =
      (if pb.2.warmup_enabled then
        pushStep st (createWarmupStep pb.2.warmup_duration_sec pb.2.warmup_activity)
        else st).steps →
      X.steps = st.steps ++ (if pb.2.warmup_enabled then
        [createWarmupStep pb.2.warmup_duration_sec pb.2.warmup_activity] else []) := by
    intro X hX
    rw [hX]
    by_cases hw : pb.2.warmup_enabled = true
    · simp only [if_pos hw]
      rfl
    · simp only [if_neg hw]
      exact (List.append_nil _).symm
  simp only [compileBlock]
  split
  · split
    · rename_i n hr hcond
      obtain ⟨l2, h2⟩ := foldExercises_steps_append lookup u _ _ (enumList 0
        ((List.map Superset.exercises (annotateBlock drt drs pb.2).supersets).flatten ++
          (annotateBlock drt drs pb.2).exercises)) _
      refine ⟨l2 ++ [create_rest_step n (blockRestType drt pb.2)], ?_⟩
      rw [pushStep_steps, h2, hI _ rfl]
      simp [List.append_assoc]
    · obtain ⟨l2, h2⟩ := foldExercises_steps_append lookup u _ _ (enumList 0
        ((List.map Superset.exercises (annotateBlock drt drs pb.2).supersets).flatten ++
          (annotateBlock drt drs pb.2).exercises)) _
      refine ⟨l2, ?_⟩
      rw [h2, hI _ rfl]
      simp [List.append_assoc]
  · obtain ⟨l2, h2⟩ := foldExercises_steps_append lookup u _ _ (enumList 0
      ((List.map Superset.exercises (annotateBlock drt drs pb.2).supersets).flatten ++
        (annotateBlock drt drs pb.2).exercises)) _
    refine ⟨l2, ?_⟩
    rw [h2, hI _ rfl]
    simp [List.append_assoc]

/-- A block iteration preserves the head of a nonempty step list. -/
theorem compileBlock_head (lookup : String → MatchResult) (u : Bool)
    (drt : String) (drs : Option Nat) (nb : Nat) (st : CompState)
    (pb : Nat × Block) (hne : st.steps ≠ []) :
    (compileBlock lookup u drt drs nb st pb).steps.head? = st.steps.head? ∧
    (compileBlock lookup u drt drs nb st pb).steps ≠ [] := by
  obtain ⟨l, hl⟩ := compileBlock_steps_shape lookup u drt drs nb st pb
  rw [hl]
  constructor
  · exact head_append_ne_nil hne
  · intro hcontra
    exact hne (List.append_eq_nil.mp hcontra).1

/-- The block fold preserves the head of a nonempty step list. -/
theorem foldBlocks_head (lookup : String → MatchResult) (u : Bool)
    (drt : String) (drs : Option Nat) (nb : Nat) :
    ∀ (pl : List (Nat × Block)) (st : CompState), st.steps ≠ [] →
      (pl.foldl (compileBlock lookup u drt drs nb) st).steps.head? =
        st.steps.head? := by
  intro pl
  induction pl with
  | nil => exact fun st _ => rfl
  | cons pb rest ih =>
    intro st hne
    rw [List.foldl_cons]
    obtain ⟨hh, hne'⟩ := compileBlock_head lookup u drt drs nb st pb hne
    rw [ih _ hne', hh]

/-- After the three leading-warm-up cases of `blocks_to_steps`, the head
of the compiled list is the spec-described default/block warm-up. -/
theorem head_after_fold_default (lookup : String → MatchResult) (u : Bool)
    (drt : String) (drs : Option Nat) (nb : Nat) (bl : List Block) :
    ((enumList 0 bl).foldl (compileBlock lookup u drt drs nb)
      (match bl.head? with
       | some fb =>
         if fb.warmup_enabled then CompState.mk [] [] none
         else pushStep (CompState.mk [] [] none) (createWarmupStep none none)
       | none => pushStep (CompState.mk [] [] none)
           (createWarmupStep none none))).steps.head? =
    some (match bl.head? with
      | some fb =>
        if fb.warmup_enabled then
          createWarmupStep fb.warmup_duration_sec fb.warmup_activity
        else createWarmupStep none none
      | none => createWarmupStep none none) := by
  cases bl with
  | nil => rfl
  | cons b0 bs =>
    by_cases hw : b0.warmup_enabled = true
    · simp only [List.head?_cons, if_pos hw]
      have hen : enumList 0 (b0 :: bs) = (0, b0) :: enumList 1 bs := rfl
      rw [hen, List.foldl_cons]
      obtain ⟨l, hl⟩ := compileBlock_steps_shape lookup u drt drs nb
        (CompState.mk [] [] none) (0, b0)
      have hne : (compileBlock lookup u drt drs nb (CompState.mk [] [] none)
          (0, b0)).steps ≠ [] := by
        rw [hl]
        simp [hw]
      rw [foldBlocks_head lookup u drt drs nb _ _ hne, hl]
      simp [hw]
    · simp only [List.head?_cons, if_neg hw]
      have hne : (pushStep (CompState.mk [] [] none)
          (createWarmupStep none none)).steps ≠ [] := by
        simp [pushStep]
      rw [foldBlocks_head lookup u drt drs nb _ _ hne]
      rfl

/-- Claim C10: for every input the compiled step list is nonempty and its
first element is a warmup step — the workout-level warm-up when enabled,
else the first block's declared warm-up, else the default open warm-up. -/
theorem fit_c10_first_step_is_warmup (lookup : String → MatchResult)
    (w : Workout) (use_lap_button : Bool) :
    (blocks_to_steps lookup w use_lap_button).1.head? = some (firstStepSpec w) ∧
    isWarmupStep (firstStepSpec w) = true ∧
    (blocks_to_steps lookup w use_lap_button).1 ≠ [] := by
  have hmain : (blocks_to_steps lookup w use_lap_button).1.head? =
      some (firstStepSpec w) := by
    simp only [blocks_to_steps]
    cases hset : w.settings with
    | none =>
      simp only [hset]
      rw [head_after_fold_default]
      unfold firstStepSpec firstBlockWarmupSpec
      simp [hset]
    | some s =>
      cases hww : s.workoutWarmup with
      | none =>
        simp only [hset, hww]
        rw [head_after_fold_default]
        unfold firstStepSpec firstBlockWarmupSpec
        simp [hset, hww]
      | some ww =>
        by_cases hen : ww.enabled = true
        · simp only [hset, hww, if_pos hen]
          have hne : (pushStep (CompState.mk [] [] none)
              (createWarmupStep ww.durationSec ww.activity)).steps ≠ [] := by
            simp [pushStep]
          rw [foldBlocks_head lookup use_lap_button _ _ _ _ _ hne]
          unfold firstStepSpec
          simp [hset, hww, hen]
          rfl
        · simp only [hset, hww, if_neg hen]
          rw [head_after_fold_default]
          unfold firstStepSpec firstBlockWarmupSpec
          simp [hset, hww, hen]
  refine ⟨hmain, firstStepSpec_isWarmup w, ?_⟩
  intro hcontra
  rw [hcontra] at hmain
  exact Option.noConfusion hmain

/-! ## C1 — the category-range invariant -/

/-- Counterexample to C1 as stated: `validate_category_id` returns a
negative input unchanged, outside [0, 32] — the `<= 32` guard admits every
negative id. -/
theorem fit_c1_counterexample :
    validate_category_id (-1) = -1 ∧
    ¬ (0 ≤ validate_category_id (-1) ∧ validate_category_id (-1) ≤ 32) := by
  constructor <;> decide

/-- Claim C1 (amended): for every nonnegative integer id,
`validate_category_id` returns a value in [0, 32]; consequently, whenever
the lookup supplies nonnegative raw category ids, every `category_id`
carried by an exercise step emitted by `blocks_to_steps` lies in [0, 32]. -/
theorem fit_c1_category_range :
    (∀ id : Int, 0 ≤ id →
      0 ≤ validate_category_id id ∧ validate_category_id id ≤ 32) ∧
    (∀ (lookup : String → MatchResult) (w : Workout) (use_lap_button : Bool),
      (∀ n, 0 ≤ (lookup n).category_id) →
      ∀ s ∈ (blocks_to_steps lookup w use_lap_button).1,
        isExerciseStep s = true →
          0 ≤ exerciseCategoryId s ∧ exerciseCategoryId s ≤ 32) := by
  constructor
  · exact fun id h => validate_range_of_nonneg h
  · intro lookup w u hlk
    refine blocks_to_steps_mem lookup u
      (fun s => isExerciseStep s = true →
        0 ≤ exerciseCategoryId s ∧ exerciseCategoryId s ≤ 32)
      ?_ ?_ ?_ ?_ ?_ w
    · intro a b habs
      rw [(create_rest_step_kind a b).1] at habs
      exact absurd habs (by simp)
    · intro t c habs
      simp [isExerciseStep] at habs
    · intro d a habs
      rw [(createWarmupStep_kind d a).1] at habs
      exact absurd habs (by simp)
    · intro dn nm cn eni ws wr _
      exact validate_range_of_nonneg (hlk nm)
    · intro dn nm cn rr sets eni nt dm ds rrg _
      exact validate_range_of_nonneg (hlk nm)

/-- Witness for C1 (amended) at `id = 40` and at a concrete compilation
whose lookup returns the out-of-range raw id 40 (remapped to 29). -/
theorem fit_c1_category_range_witness :
    (0 ≤ validate_category_id 40 ∧ validate_category_id 40 ≤ 32) ∧
    (0 ≤ exerciseCategoryId (Step.exercise "X" "500m Run" 29 "X" "active"
        "lap_button" 0 none 1 none none false) ∧
      exerciseCategoryId (Step.exercise "X" "500m Run" 29 "X" "active"
        "lap_button" 0 none 1 none none false) ≤ 32) :=
  ⟨fit_c1_category_range.1 40 (by decide),
   fit_c1_category_range.2 constCardioLookup run500Workout false
     (fun n => by show (0 : Int) ≤ 40; decide)
     (Step.exercise "X" "500m Run" 29 "X" "active" "lap_button" 0 none 1
       none none false)
     (by decide) (by decide)⟩

/-! ## C5 — duration-kind selection -/

/-- A nonempty string is not falsy. -/
theorem strIsEmpty_false {s : String} (h : s ≠ "") : strIsEmpty s = false := by
  unfold strIsEmpty
  cases hs : s.toList with
  | nil =>
    exfalso
    apply h
    cases s with
    | mk data =>
      simp [String.toList] at hs
      rw [hs]
  | cons c rest => rfl

/-- Counterexample to C5 as stated: with `use_lap_button = true`, the
warm-up-set exercise step still carries the `reps` duration kind — the
flag does not reach the warm-up-set emission (fit_builder.py
lines 409-421). -/
theorem fit_c5_counterexample :
    (blocks_to_steps builtinLookup warmupSetsWorkout true).1.get? 1 =
      some warmupSetStepC5 ∧
    stepDurationType warmupSetStepC5 = "reps" ∧
    stepDurationType warmupSetStepC5 ≠ "lap_button" := by
  refine ⟨by decide, by decide, by decide⟩

/-- Claim C5 (amended): the duration kind of every working-set exercise
step is selected by the source's priority chain — explicit positive
distance field, then a distance pattern parsed from a textual reps value,
then a positive duration field, then explicit reps (integer or lowest
bound of a textual range), then the upper bound of a reps-range field,
otherwise open/lap-button; `use_lap_button = true` forces
open/lap-button for every working-set step, but warm-up-set exercise
steps always use the reps duration kind. -/
theorem fit_c5_duration_priority :
    (∀ (dm : Option Nat) (rr : Option RepsVal) (ds : Option Nat)
        (rg : Option String),
      exerciseDuration true dm rr ds rg = ("lap_button", 0)) ∧
    (∀ (d : Nat) (rr : Option RepsVal) (ds : Option Nat) (rg : Option String),
      0 < d →
      exerciseDuration false (some d) rr ds rg = ("distance", (d : Int) * 100)) ∧
    (∀ (dm : Option Nat) (s : String) (ds : Option Nat) (rg : Option String)
        (cm : Int),
      (dm = none ∨ dm = some 0) →
      parseRepsDistanceCm (pyLowerStrip s) = some cm →
      exerciseDuration false dm (some (RepsVal.str s)) ds rg = ("distance", cm)) ∧
    (∀ (dm : Option Nat) (rr : Option RepsVal) (t : Nat) (rg : Option String),
      (dm = none ∨ dm = some 0) →
      (∀ s, rr = some (RepsVal.str s) →
        parseRepsDistanceCm (pyLowerStrip s) = none) →
      0 < t →
      exerciseDuration false dm rr (some t) rg = ("time", (t : Int) * 1000)) ∧
    (∀ (dm : Option Nat) (rv : RepsVal) (ds : Option Nat) (rg : Option String),
      (dm = none ∨ dm = some 0) →
      (∀ s, rv = RepsVal.str s →
        parseRepsDistanceCm (pyLowerStrip s) = none) →
      (ds = none ∨ ds = some 0) →
      exerciseDuration false dm (some rv) ds rg = ("reps", repsDurationValue rv)) ∧
    (∀ n : Int, n ≠ 0 → repsDurationValue (RepsVal.int n) = n) ∧
    (∀ (dm : Option Nat) (ds : Option Nat) (rg : String),
      (dm = none ∨ dm = some 0) → (ds = none ∨ ds = some 0) → rg ≠ "" →
      exerciseDuration false dm none ds (some rg) = ("reps", repsRangeUpper rg)) ∧
    (∀ (dm : Option Nat) (ds : Option Nat) (rg : Option String),
      (dm = none ∨ dm = some 0) → (ds = none ∨ ds = some 0) →
      (rg = none ∨ rg = some "") →
      exerciseDuration false dm none ds rg = ("lap_button", 0)) ∧
    (∀ (lookup : String → MatchResult) (w : Workout) (u : Bool),
      ∀ s ∈ (blocks_to_steps lookup w u).1, isExerciseStep s = true →
        (stepIsWarmupSet s = false →
          ∃ dm rr ds rg, (stepDurationType s, stepDurationValue s) =
            exerciseDuration u dm rr ds rg) ∧
        (stepIsWarmupSet s = true → stepDurationType s = "reps")) := by
  refine ⟨?_, ?_, ?_, ?_, ?_, ?_, ?_, ?_, ?_⟩
  · intro dm rr ds rg
    rfl
  · intro d rr ds rg hd
    simp [exerciseDuration, hd]
  · intro dm s ds rg cm hdm hparse
    rcases hdm with rfl | rfl <;> simp [exerciseDuration, hparse]
  · intro dm rr t rg hdm hrr ht
    have hfr : (match rr with
        | some (RepsVal.str s) => parseRepsDistanceCm (pyLowerStrip s)
        | _ => none) = none := by
      match rr with
      | none => rfl
      | some (RepsVal.int n) => rfl
      | some (RepsVal.str s) => exact hrr s rfl
    rcases hdm with rfl | rfl <;>
      simp [exerciseDuration, hfr, ht, Nat.pos_iff_ne_zero]
  · intro dm rv ds rg hdm hrv hds
    have hfr : (match (some rv : Option RepsVal) with
        | some (RepsVal.str s) => parseRepsDistanceCm (pyLowerStrip s)
        | _ => none) = none := by
      match rv with
      | RepsVal.int n => rfl
      | RepsVal.str s => exact hrv s rfl
    have hds0 : ds.getD 0 = 0 := by rcases hds with rfl | rfl <;> rfl
    rcases hdm with rfl | rfl <;> simp [exerciseDuration, hfr, hds0]
  · intro n hn
    simp [repsDurationValue, hn]
  · intro dm ds rg hdm hds hrg
    have hds0 : ds.getD 0 = 0 := by rcases hds with rfl | rfl <;> rfl
    have hrg0 : strIsEmpty rg = false := strIsEmpty_false hrg
    rcases hdm with rfl | rfl <;> simp [exerciseDuration, hds0, hrg0]
  · intro dm ds rg hdm hds hrg
    have hds0 : ds.getD 0 = 0 := by rcases hds with rfl | rfl <;> rfl
    have hrg0 : strIsEmpty (rg.getD "") = true := by
      rcases hrg with rfl | rfl <;> rfl
    rcases hdm with rfl | rfl <;> simp [exerciseDuration, hds0, hrg0]
  · intro lookup w u
    refine blocks_to_steps_mem lookup u
      (fun s => isExerciseStep s = true →
        (stepIsWarmupSet s = false →
          ∃ dm rr ds rg, (stepDurationType s, stepDurationValue s) =
            exerciseDuration u dm rr ds rg) ∧
        (stepIsWarmupSet s = true → stepDurationType s = "reps"))
      ?_ ?_ ?_ ?_ ?_ w
    · intro a b habs
      rw [(create_rest_step_kind a b).1] at habs
      exact absurd habs (by simp)
    · intro t c habs
      simp [isExerciseStep] at habs
    · intro d a habs
      rw [(createWarmupStep_kind d a).1] at habs
      exact absurd habs (by simp)
    · intro dn nm cn eni ws wr _
      constructor
      · intro habs
        simp [stepIsWarmupSet] at habs
      · intro _
        rfl
    · intro dn nm cn rr sets eni nt dm ds rrg _
      constructor
      · intro _
        exact ⟨dm, rr, ds, rrg, rfl⟩
      · intro habs
        simp [stepIsWarmupSet] at habs

/-- Witness for C5 (amended) at concrete inputs for each priority rule. -/
theorem fit_c5_duration_priority_witness :
    exerciseDuration true (some 500) none none none = ("lap_button", 0) ∧
    exerciseDuration false (some 500) none none none = ("distance", 50000) ∧
    exerciseDuration false none (some (RepsVal.str "500m")) none none =
      ("distance", 50000) ∧
    exerciseDuration false none (some (RepsVal.str "6-8")) (some 45) none =
      ("time", 45000) ∧
    exerciseDuration false none (some (RepsVal.str "6-8")) none none =
      ("reps", repsDurationValue (RepsVal.str "6-8")) ∧
    repsDurationValue (RepsVal.int 12) = 12 ∧
    exerciseDuration false none none none (some "6-8") =
      ("reps", repsRangeUpper "6-8") ∧
    exerciseDuration false none none none none = ("lap_button", 0) :=
  ⟨fit_c5_duration_priority.1 (some 500) none none none,
   fit_c5_duration_priority.2.1 500 none none none (by decide),
   fit_c5_duration_priority.2.2.1 none "500m" none none 50000 (Or.inl rfl)
     (by decide),
   fit_c5_duration_priority.2.2.2.1 none (some (RepsVal.str "6-8")) 45 none
     (Or.inl rfl) (fun s hs => by cases hs; decide) (by decide),
   fit_c5_duration_priority.2.2.2.2.1 none (RepsVal.str "6-8") none none
     (Or.inl rfl) (fun s hs => by cases hs; decide) (Or.inl rfl),
   fit_c5_duration_priority.2.2.2.2.2.1 12 (by decide),
   fit_c5_duration_priority.2.2.2.2.2.2.1 none none "6-8" (Or.inl rfl)
     (Or.inl rfl) (by decide),
   fit_c5_duration_priority.2.2.2.2.2.2.2.1 none none none (Or.inl rfl)
     (Or.inl rfl) (Or.inl rfl)⟩

end AmakaFit

